import Mathlib

/-!
# Campus event management back end: a shallow embedding

The route handlers of `backend/routes/*.js` and the middleware of
`backend/middleware/auth.js` are embedded as pure functions over an explicit
database state `Db`.

Conventions of the embedding.

* A table is a list of rows, in storage order.
* `pool.query` (`backend/config/database-sqlite.js`) sends a statement that
  starts with `select` to `db.all` and answers with the selected rows; every
  other statement goes to `db.run` and is answered with the single row
  `{ id: this.lastID }`, whatever the statement matched.  `runRows` is that
  second branch.
* The database behind `pool` is SQLite.  A statement whose text has a part
  that is PostgreSQL and not SQLite (the cast `::float`, the operator `ILIKE`,
  the function `NOW()`) is refused by sqlite3: the promise of `pool.query` is
  rejected and the `catch` block of the handler answers 500 (`poolQuery`).
* A `SELECT` that sqlite3 runs is read with the usual relational meaning of its
  text: `LEFT JOIN` (`leftJoin`), `JOIN` (`innerJoin`), `WHERE`, `GROUP BY`
  (`groupBy`), `COUNT(col)` (`countNonNull`), `LIMIT/OFFSET` (`limitOffset`).
* The column values sqlite3 hands back are numbers, strings or NULL, never
  `Date` objects (`columnIsoDate`).
* Instants (timestamps, dates) are natural numbers of milliseconds.
* Other storage exceptions (a closed connection, a full disk) are outside the
  model, as are the type coercions of request parameters: ids, page and limit
  are natural numbers.
-/

set_option autoImplicit false

namespace Campus

/-! ## Rows -/

structure College where
  id : Nat
  name : String
deriving DecidableEq, Repr

structure User where
  id : Nat
  college_id : Nat
  email : String
  first_name : String
  last_name : String
  student_id : Option String
  role : String
  is_active : Bool
  password_hash : String := ""
deriving DecidableEq, Repr

structure EventCategory where
  id : Nat
  name : String
deriving DecidableEq, Repr

structure Event where
  id : Nat
  college_id : Nat
  category_id : Nat
  title : String
  description : Option String
  event_date : Nat
  start_time : String
  end_time : String
  location : Option String
  capacity : Option Nat
  registration_deadline : Option Nat
  created_by : Nat
  status : String
  created_at : Nat
  updated_at : Nat
deriving DecidableEq, Repr

structure Registration where
  id : Nat
  event_id : Nat
  user_id : Nat
  status : String
  registration_date : Nat
deriving DecidableEq, Repr

structure Attendance where
  id : Nat
  event_id : Nat
  user_id : Nat
  check_in_time : Nat
  check_out_time : Option Nat
  status : String
deriving DecidableEq, Repr

structure Feedback where
  id : Nat
  event_id : Nat
  user_id : Nat
  rating : Int
  comment : Option String
  submitted_at : Nat
deriving DecidableEq, Repr

structure Db where
  colleges : List College
  users : List User
  event_categories : List EventCategory
  events : List Event
  registrations : List Registration
  attendance : List Attendance
  /-- The connection's last insert rowid, read by the wrapper as `this.lastID`. -/
  lastID : Nat
  feedback : List Feedback := []
deriving DecidableEq, Repr

/-! ## Responses -/

/-- What a handler sends: `res.status(s).json(body)` with a payload on success,
or the `{ error, message }` object of a refusal. -/
inductive Response (α : Type) where
  | json (status : Nat) (body : α)
  | fail (status : Nat) (error : String) (message : String)
deriving DecidableEq, Repr

/-- The HTTP status of a response. -/
def Response.status {α : Type} : Response α → Nat
  | .json s _ => s
  | .fail s _ _ => s

/-! ## Relational operators -/

section Relational

variable {α β κ : Type}

/-- The rows of `l LEFT JOIN r ON cond`: every match of a left row, or the left
row once with a NULL right side when it has no match. -/
def leftJoin (l : List α) (r : List β) (cond : α → β → Bool) : List (α × Option β) :=
  l.flatMap fun a =>
    match r.filter (cond a) with
    | [] => [(a, none)]
    | ms => ms.map fun b => (a, some b)

/-- The rows of `l JOIN r ON cond`. -/
def innerJoin (l : List α) (r : List β) (cond : α → β → Bool) : List (α × β) :=
  l.flatMap fun a => (r.filter (cond a)).map fun b => (a, b)

/-- The value of `COUNT(col)` over a group: the rows whose `col` is not NULL. -/
def countNonNull (rows : List α) (col : α → Option β) : Nat :=
  (rows.filter fun x => (col x).isSome).length

/-- The groups of `GROUP BY key`, in order of first appearance of the key. -/
def groupBy [DecidableEq κ] (key : α → κ) (rows : List α) : List (κ × List α) :=
  (rows.map key).dedup.map fun k => (k, rows.filter fun x => decide (key x = k))

/-- The rows kept by `LIMIT limit OFFSET offset`; a negative offset skips nothing. -/
def limitOffset (limit : Nat) (offset : Int) (rows : List α) : List α :=
  (rows.drop offset.toNat).take limit

/-- The rows `pool.query` answers for a statement that does not start with
`select`: the wrapper resolves `{ rows: [{ id: this.lastID }] }`. -/
def runRows (lastID : Nat) : List Nat := [lastID]

/-- The rowid given to a row inserted into a table whose rowids are `ids`. -/
def nextId (ids : List Nat) : Nat := ids.foldr max 0 + 1

/-- The value of `Math.ceil(total / limit)` as serialised in the JSON body:
a division by zero gives `Infinity` or `NaN`, both written `null`. -/
def pagesOf (total limit : Nat) : Option Nat :=
  if limit = 0 then none else some ((total + limit - 1) / limit)

/-- The rows in the order of `ORDER BY key ASC` (`desc = false`) or
`ORDER BY key DESC`, where `le` compares two keys. -/
def orderBy (le : α → α → Bool) (desc : Bool) (rows : List α) : List α :=
  if desc then rows.insertionSort (fun a b => le b a = true)
  else rows.insertionSort (fun a b => le a b = true)

end Relational

/-! ## Statements sqlite3 refuses -/

/-- A part of a statement text that is PostgreSQL and not SQLite: the cast
`::float`, the operator `ILIKE`, the function `NOW()`. -/
inductive PgOnly where
  | cast
  | ilike
  | now
deriving DecidableEq, Repr

/-- The outcome of `await pool.query(text, params)` for a `select` whose text
has the PostgreSQL-only parts `parts` and whose relational reading selects
`rows`: `db.all` calls back with an error and the promise is rejected (`none`)
when there is such a part, and resolves to the rows otherwise. -/
def poolQuery {α : Type} (parts : List PgOnly) (rows : List α) : Option (List α) :=
  if parts.isEmpty then some rows else none

/-! ## `GET /api/attendance/events/:id/summary` -/

structure AttendanceSummary where
  title : String
  event_date : Nat
  capacity : Option Nat
  total_registrations : Nat
  total_attendance : Nat
  /-- The value of `attendance_percentage` in hundredths of a percent point. -/
  attendance_percentage_x100 : Nat
deriving DecidableEq, Repr

/-- The reading of `ROUND(CASE WHEN r > 0 THEN (a::float / r) * 100 ELSE 0 END, 2)`
in hundredths, on exact quotients, ties rounded up: what the expression would
select on an engine that has the cast. -/
def roundedPercentX100 (a r : Nat) : Nat :=
  if r > 0 then (2 * (a * 10000) + r) / (2 * r) else 0

/-- The joined rows of the summary query before grouping. -/
def summaryJoin (db : Db) (college_id id : Nat) :
    List ((Event × Option Registration) × Option Attendance) :=
  (leftJoin
      (leftJoin db.events db.registrations
        (fun e r => decide (e.id = r.event_id) && decide (r.status = "registered")))
      db.attendance (fun er a => decide (er.1.id = a.event_id))).filter
    (fun x => decide (x.1.1.id = id) && decide (x.1.1.college_id = college_id))

/-- The rows of the summary query. -/
def summaryRows (db : Db) (college_id id : Nat) : List AttendanceSummary :=
  (groupBy (fun x : (Event × Option Registration) × Option Attendance =>
      (x.1.1.id, x.1.1.title, x.1.1.event_date, x.1.1.capacity))
    (summaryJoin db college_id id)).map fun g =>
      let regs := countNonNull g.2 (fun x => x.1.2.map (·.id))
      let atts := countNonNull g.2 (fun x => x.2.map (·.id))
      { title := g.1.2.1, event_date := g.1.2.2.1, capacity := g.1.2.2.2
        total_registrations := regs, total_attendance := atts
        attendance_percentage_x100 := roundedPercentX100 atts regs }

/-- The handler of `GET /events/:id/summary` in `routes/attendance.js`. The text
of its statement has `COUNT(a.id)::float`; a rejected promise is caught and
answered 500. -/
def attendanceSummary (db : Db) (user : User) (id : Nat) : Response AttendanceSummary :=
  if user.role ≠ "admin" then
    .fail 403 "Forbidden" "Only admins can view attendance summaries"
  else
    match poolQuery [.cast] (summaryRows db user.college_id id) with
    | none => .fail 500 "Internal Server Error" "Failed to fetch attendance summary"
    | some [] => .fail 404 "Not Found" "Event not found"
    | some (row :: _) => .json 200 row


/-! ## JavaScript strings -/

/-- The UTF-16 code units of a character. -/
def utf16Char (c : Char) : List Nat :=
  if c.toNat < 65536 then [c.toNat]
  else [55296 + (c.toNat - 65536) / 1024, 56320 + (c.toNat - 65536) % 1024]

/-- The UTF-16 code units of a string, the sequence JavaScript compares and measures. -/
def utf16 (s : String) : List Nat := s.toList.flatMap utf16Char

/-- The value of `s.length` in JavaScript. -/
def jsLength (s : String) : Nat := (utf16 s).length

/-- Lexicographic comparison of code-unit sequences: `a < b` on JavaScript strings. -/
def unitsLt : List Nat → List Nat → Bool
  | [], [] => false
  | [], _ :: _ => true
  | _ :: _, [] => false
  | x :: xs, y :: ys => if x < y then true else if y < x then false else unitsLt xs ys

/-- The value of `a >= b` on JavaScript strings. -/
def jsStrGe (a b : String) : Bool := !unitsLt (utf16 a) (utf16 b)

/-- The pieces of `s.split(' ')`. -/
def splitSpaces : List Char → List (List Char)
  | [] => [[]]
  | c :: cs =>
    if c = ' ' then [] :: splitSpaces cs
    else
      match splitSpaces cs with
      | [] => [[c]]
      | w :: ws => (c :: w) :: ws


/-! ## `routes/events.js`: reading events -/

/-- A row of the event queries: `e.*` with the joined names and the two counts. -/
structure EventRow where
  event : Event
  category_name : Option String
  created_by_name : Option String
  registration_count : Nat
  attendance_count : Nat
deriving DecidableEq, Repr

/-- A row of `events e LEFT JOIN event_categories ec LEFT JOIN users u
LEFT JOIN registrations r LEFT JOIN attendance a`. -/
abbrev EventJoinRow :=
  (((Event × Option EventCategory) × Option User) × Option Registration) × Option Attendance

/-- The event of a joined row. -/
def EventJoinRow.e (x : EventJoinRow) : Event := x.1.1.1.1

/-- The value of `ec.name` in a joined row. -/
def EventJoinRow.ecName (x : EventJoinRow) : Option String := x.1.1.1.2.map (·.name)

/-- The value of `u.first_name` in a joined row. -/
def EventJoinRow.uFirstName (x : EventJoinRow) : Option String := x.1.1.2.map (·.first_name)

/-- The `FROM` clause shared by `GET /` and `GET /:id`. -/
def eventJoin (db : Db) : List EventJoinRow :=
  leftJoin
    (leftJoin
      (leftJoin
        (leftJoin db.events db.event_categories (fun e ec => decide (e.category_id = ec.id)))
        db.users (fun x u => decide (x.1.created_by = u.id)))
      db.registrations
      (fun x r => decide (x.1.1.id = r.event_id) && decide (r.status = "registered")))
    db.attendance (fun x a => decide (x.1.1.1.id = a.event_id))

/-- The rows of `SELECT e.*, ec.name, u.first_name, COUNT(r.id), COUNT(a.id) ...
GROUP BY e.id, ec.name, u.first_name` over the joined rows that pass `WHERE`. -/
def eventRows (db : Db) (wh : Event → Bool) : List EventRow :=
  (groupBy (fun x : EventJoinRow => (x.e.id, x.ecName, x.uFirstName))
    ((eventJoin db).filter fun x => wh x.e)).filterMap fun g =>
      g.2.head?.map fun x =>
        { event := x.e, category_name := g.1.2.1, created_by_name := g.1.2.2
          registration_count := countNonNull g.2 (fun y => y.1.2.map (·.id))
          attendance_count := countNonNull g.2 (fun y => y.2.map (·.id)) }

/-- The handler of `GET /:id` in `routes/events.js`. -/
def getEvent (db : Db) (user : User) (id : Nat) : Response EventRow :=
  match eventRows db (fun e => decide (e.id = id) && decide (e.college_id = user.college_id)) with
  | [] => .fail 404 "Not Found" "Event not found"
  | row :: _ => .json 200 row

/-- The operators the handlers take from outside: SQL `ILIKE` (value, pattern)
and `String.prototype.toUpperCase`. -/
structure Ops where
  ilike : String → String → Bool
  toUpperCase : String → String

/-- The operators restricted to ASCII letters, with `%` the only wildcard, used at
the two ends of the pattern. -/
def asciiOps : Ops where
  ilike := fun v pat =>
    (v.toList.map Char.toLower).tails.any
      (((pat.toList.filter (· ≠ '%')).map Char.toLower).isPrefixOf ·)
  toUpperCase := fun s => String.mk (s.toList.map Char.toUpper)

/-- The query string of `GET /`, with the defaults of the destructuring. -/
structure EventListQuery where
  page : Nat := 1
  limit : Nat := 10
  status : Option String := none
  categoryId : Option Nat := none
  search : Option String := none
  sortBy : String := "event_date"
  sortOrder : String := "ASC"

/-- The pagination object of a list answer. -/
structure Pagination where
  page : Nat
  limit : Nat
  total : Nat
  pages : Option Nat
deriving DecidableEq, Repr

/-- The body of a list answer. -/
structure Page (α : Type) where
  rows : List α
  pagination : Pagination
deriving DecidableEq, Repr

/-- The `WHERE` clause `GET /` builds: a filter is added when its parameter is
truthy. The `search` filter is the reading of `ILIKE` through `ops`, which
sqlite3 never evaluates (`eventListPgOnly`). -/
def eventListWhere (ops : Ops) (college_id : Nat) (q : EventListQuery) (e : Event) : Bool :=
  decide (e.college_id = college_id)
  && (match q.status with
      | some st => if st = "" then true else decide (e.status = st)
      | none => true)
  && (match q.categoryId with
      | some c => decide (e.category_id = c)
      | none => true)
  && (match q.search with
      | some t =>
        if t = "" then true
        else ops.ilike e.title ("%" ++ t ++ "%")
          || (match e.description with
              | some d => ops.ilike d ("%" ++ t ++ "%")
              | none => false)
      | none => true)

/-- The column interpolated after `ORDER BY e.`: the parameter if it is in the
list, the default otherwise. -/
def sortColumnOf (valid : List String) (dflt sortBy : String) : String :=
  if valid.contains sortBy then sortBy else dflt

/-- The direction interpolated into `ORDER BY`. -/
def sortDirectionOf (ops : Ops) (dflt sortOrder : String) : String :=
  if ["ASC", "DESC"].contains (ops.toUpperCase sortOrder) then ops.toUpperCase sortOrder else dflt

/-- Comparison of two NULL-able numbers in an `ORDER BY`, NULL first. -/
def optLe : Option Nat → Option Nat → Bool
  | none, _ => true
  | some _, none => false
  | some a, some b => decide (a ≤ b)

/-- Comparison of two events on a column of the allowlist of `GET /`. -/
def eventColumnLe (col : String) (a b : Event) : Bool :=
  if col = "title" then !decide (b.title < a.title)
  else if col = "created_at" then decide (a.created_at ≤ b.created_at)
  else if col = "capacity" then optLe a.capacity b.capacity
  else decide (a.event_date ≤ b.event_date)

/-- The PostgreSQL-only parts of the two statements of `GET /`: `ILIKE`, which
the `WHERE` clause has when `search` is truthy. -/
def eventListPgOnly (q : EventListQuery) : List PgOnly :=
  match q.search with
  | some t => if t = "" then [] else [.ilike]
  | none => []

/-- The handler of `GET /` in `routes/events.js`. A rejected promise of the
listing statement is caught and answered 500. -/
def listEvents (ops : Ops) (db : Db) (user : User) (q : EventListQuery) : Response (Page EventRow) :=
  let offset : Int := ((q.page : Int) - 1) * q.limit
  let wh := eventListWhere ops user.college_id q
  let sortColumn := sortColumnOf ["event_date", "title", "created_at", "capacity"] "event_date" q.sortBy
  let sortDirection := sortDirectionOf ops "ASC" q.sortOrder
  match poolQuery (eventListPgOnly q) (limitOffset q.limit offset
    (orderBy (fun a b : EventRow => eventColumnLe sortColumn a.event b.event)
      (decide (sortDirection = "DESC")) (eventRows db wh))) with
  | none => .fail 500 "Internal Server Error" "Failed to fetch events"
  | some rows =>
    let total := (db.events.filter wh).length
    .json 200 { rows := rows
                pagination := { page := q.page, limit := q.limit, total := total
                                pages := pagesOf total q.limit } }


/-! ## `routes/events.js`: the event schema -/

/-- The request body of `POST /` and `PUT /:id`, one optional entry per key of
`eventSchema`. -/
structure EventPayload where
  title : Option String := none
  description : Option String := none
  eventDate : Option Nat := none
  startTime : Option String := none
  endTime : Option String := none
  location : Option String := none
  capacity : Option Int := none
  registrationDeadline : Option Nat := none
  categoryId : Option Int := none
deriving DecidableEq, Repr

/-- A validated body: the required keys are present. -/
structure EventValue where
  title : String
  description : Option String
  eventDate : Nat
  startTime : String
  endTime : String
  location : Option String
  capacity : Option Int
  registrationDeadline : Option Nat
  categoryId : Int
deriving DecidableEq, Repr

/-- An ASCII digit between `lo` and `hi`. -/
def digitIn (lo hi : Char) (c : Char) : Bool := decide (lo.toNat ≤ c.toNat) && decide (c.toNat ≤ hi.toNat)

/-- The test of `/^([0-1]?[0-9]|2[0-3]):[0-5][0-9]$/` on the characters of a string. -/
def timePatternChars : List Char → Bool
  | [h, ':', m1, m2] => digitIn '0' '9' h && digitIn '0' '5' m1 && digitIn '0' '9' m2
  | [h1, h2, ':', m1, m2] =>
    ((digitIn '0' '1' h1 && digitIn '0' '9' h2) || (h1 == '2' && digitIn '0' '3' h2))
      && digitIn '0' '5' m1 && digitIn '0' '9' m2
  | _ => false

/-- The pattern of `startTime` and `endTime`. -/
def timePattern (s : String) : Bool := timePatternChars s.toList

/-- The rule `Joi.string().max(n).optional()`: absent, or a non-empty string of
at most `n` code units. -/
def optStringOk (n : Nat) : Option String → Bool
  | none => true
  | some v => decide (v ≠ "") && decide (jsLength v ≤ n)

/-- The rule `Joi.string().pattern(...).required()` of the two times. -/
def timeOk : Option String → Bool
  | none => false
  | some v => decide (v ≠ "") && timePattern v

/-- The value of `Number.MAX_SAFE_INTEGER`: `Joi.number()` refuses a number
above it. -/
def maxSafeInteger : Int := 9007199254740991

/-- The outcome of `eventSchema.validate(req.body)` at instant `now`: the value,
or the key of the first rule that fails, in the order of the schema. -/
def eventSchemaValidate (now : Nat) (b : EventPayload) : Except String EventValue :=
  match b.title with
  | none => .error "title"
  | some title =>
    if !(decide (3 ≤ jsLength title) && decide (jsLength title ≤ 255)) then .error "title"
    else if !optStringOk 1000 b.description then .error "description"
    else
      match b.eventDate with
      | none => .error "eventDate"
      | some eventDate =>
        if !decide (now ≤ eventDate) then .error "eventDate"
        else
          match b.startTime with
          | none => .error "startTime"
          | some startTime =>
            if !timeOk (some startTime) then .error "startTime"
            else
              match b.endTime with
              | none => .error "endTime"
              | some endTime =>
                if !timeOk (some endTime) then .error "endTime"
                else if !optStringOk 255 b.location then .error "location"
                else if !(match b.capacity with
                          | none => true
                          | some c => decide (1 ≤ c) && decide (c ≤ maxSafeInteger))
                  then .error "capacity"
                else if !(match b.registrationDeadline with
                          | none => true
                          | some d => decide (now ≤ d)) then .error "registrationDeadline"
                else
                  match b.categoryId with
                  | none => .error "categoryId"
                  | some categoryId =>
                    if !(decide (0 < categoryId) && decide (categoryId ≤ maxSafeInteger))
                      then .error "categoryId"
                    else .ok { title := title, description := b.description
                               eventDate := eventDate, startTime := startTime
                               endTime := endTime, location := b.location
                               capacity := b.capacity
                               registrationDeadline := b.registrationDeadline
                               categoryId := categoryId }

/-- The body of an answer to a statement run through `db.run`: the message and
the row `{ id: this.lastID }` the wrapper hands back. -/
structure RunBody where
  message : String
  id : Nat
deriving DecidableEq, Repr

/-! ## `routes/events.js`: writing events -/

/-- The handler of `POST /` in `routes/events.js`, at instant `now`. -/
def createEvent (db : Db) (now : Nat) (user : User) (body : EventPayload) :
    Db × Response RunBody :=
  match eventSchemaValidate now body with
  | .error key => (db, .fail 400 "Validation Error" key)
  | .ok v =>
    if (db.event_categories.filter fun c => decide ((c.id : Int) = v.categoryId)).length = 0 then
      (db, .fail 400 "Bad Request" "Invalid category ID")
    else if jsStrGe v.startTime v.endTime then
      (db, .fail 400 "Bad Request" "Start time must be before end time")
    else
      let newId := nextId (db.events.map (·.id))
      let row : Event :=
        { id := newId, college_id := user.college_id, category_id := v.categoryId.toNat
          title := v.title, description := v.description, event_date := v.eventDate
          start_time := v.startTime, end_time := v.endTime, location := v.location
          capacity := v.capacity.map Int.toNat
          registration_deadline := v.registrationDeadline
          created_by := user.id, status := "draft", created_at := now, updated_at := now }
      ({ db with events := db.events ++ [row], lastID := newId },
       .json 201 { message := "Event created successfully", id := (runRows newId).headD 0 })

/-- The row an `UPDATE events SET ...` of `PUT /:id` writes over `e`. -/
def applyEventUpdate (now : Nat) (v : EventValue) (e : Event) : Event :=
  { e with category_id := v.categoryId.toNat, title := v.title, description := v.description
           event_date := v.eventDate, start_time := v.startTime, end_time := v.endTime
           location := v.location, capacity := v.capacity.map Int.toNat
           registration_deadline := v.registrationDeadline, updated_at := now }

/-- The handler of `PUT /:id` in `routes/events.js`, at instant `now`. -/
def updateEvent (db : Db) (now : Nat) (user : User) (id : Nat) (body : EventPayload) :
    Db × Response RunBody :=
  match eventSchemaValidate now body with
  | .error key => (db, .fail 400 "Validation Error" key)
  | .ok v =>
    match db.events.filter fun e => decide (e.id = id) && decide (e.college_id = user.college_id) with
    | [] => (db, .fail 404 "Not Found" "Event not found")
    | existing :: _ =>
      if existing.status = "completed" then
        (db, .fail 400 "Bad Request" "Cannot update completed events")
      else
        let db' := { db with events := db.events.map fun e =>
          if e.id = id ∧ e.college_id = user.college_id then applyEventUpdate now v e else e }
        (db', .json 200 { message := "Event updated successfully"
                          id := (runRows db.lastID).headD 0 })

/-- The handler of `DELETE /:id` in `routes/events.js`. -/
def deleteEvent (db : Db) (user : User) (id : Nat) : Db × Response String :=
  if (db.registrations.filter fun r => decide (r.event_id = id)).length > 0 then
    (db, .fail 400 "Bad Request" "Cannot delete event with existing registrations")
  else
    let db' := { db with events := db.events.filter fun e =>
      !(decide (e.id = id) && decide (e.college_id = user.college_id)) }
    match runRows db.lastID with
    | [] => (db', .fail 404 "Not Found" "Event not found")
    | _ :: _ => (db', .json 200 "Event deleted successfully")

/-! ## Rosters -/

/-- A row of `GET /:id/registrations`: `r.*` with the registrant's identity. -/
structure RegistrantRow where
  registration : Registration
  first_name : String
  last_name : String
  email : String
  student_id : Option String
deriving DecidableEq, Repr

/-- The query string of `GET /:id/registrations`. -/
structure RegistrationListQuery where
  page : Nat := 1
  limit : Nat := 20
  status : String := "registered"

/-- The handler of `GET /:id/registrations` in `routes/events.js`. -/
def listRegistrations (db : Db) (id : Nat) (q : RegistrationListQuery) :
    Response (Page RegistrantRow) :=
  let offset : Int := ((q.page : Int) - 1) * q.limit
  let joined := (innerJoin db.registrations db.users (fun r u => decide (r.user_id = u.id))).filter
    fun x => decide (x.1.event_id = id) && decide (x.1.status = q.status)
  let rows := limitOffset q.limit offset
    (orderBy (fun a b : Registration × User => decide (a.1.registration_date ≤ b.1.registration_date))
      true joined)
  let total := (db.registrations.filter fun r =>
    decide (r.event_id = id) && decide (r.status = q.status)).length
  .json 200 { rows := rows.map fun x =>
                { registration := x.1, first_name := x.2.first_name, last_name := x.2.last_name
                  email := x.2.email, student_id := x.2.student_id }
              pagination := { page := q.page, limit := q.limit, total := total
                              pages := pagesOf total q.limit } }

/-- A row of `GET /api/attendance/events/:id`: `a.*` with the attendee's identity. -/
structure AttendeeRow where
  attendance : Attendance
  first_name : String
  last_name : String
  email : String
  student_id : Option String
deriving DecidableEq, Repr

/-- The handler of `GET /events/:id` in `routes/attendance.js`, with `page` and
`limit` of the query string (defaults 1 and 20). -/
def listAttendance (db : Db) (user : User) (id : Nat) (page limit : Nat) :
    Response (Page AttendeeRow) :=
  let offset : Int := ((page : Int) - 1) * limit
  if user.role ≠ "admin" then
    .fail 403 "Forbidden" "Only admins can view attendance lists"
  else
    let joined := (innerJoin db.attendance db.users (fun a u => decide (a.user_id = u.id))).filter
      fun x => decide (x.1.event_id = id)
    let rows := limitOffset limit offset
      (orderBy (fun a b : Attendance × User => decide (a.1.check_in_time ≤ b.1.check_in_time))
        true joined)
    let total := (db.attendance.filter fun a => decide (a.event_id = id)).length
    .json 200 { rows := rows.map fun x =>
                  { attendance := x.1, first_name := x.2.first_name, last_name := x.2.last_name
                    email := x.2.email, student_id := x.2.student_id }
                pagination := { page := page, limit := limit, total := total
                                pages := pagesOf total limit } }


/-! ## `routes/students.js`: registering and cancelling -/

/-- The rows of the first query of `POST /events/:id/register`: the published
event `id` of the college with `COUNT(r.id)` over its active registrations. -/
def registerLookup (db : Db) (college_id id : Nat) : List (Event × Nat) :=
  (groupBy (fun x : Event × Option Registration => x.1.id)
    ((leftJoin db.events db.registrations
        (fun e r => decide (e.id = r.event_id) && decide (r.status = "registered"))).filter
      fun x => decide (x.1.id = id) && decide (x.1.college_id = college_id)
        && decide (x.1.status = "published"))).filterMap fun g =>
    g.2.head?.map fun x => (x.1, countNonNull g.2 (fun y => y.2.map (·.id)))

/-- The test `event.registration_deadline && new Date() > new Date(event.registration_deadline)`. -/
def deadlinePassed (now : Nat) (e : Event) : Bool :=
  match e.registration_deadline with
  | none => false
  | some d => decide (d ≠ 0) && decide (d < now)

/-- The test `event.capacity && parseInt(event.current_registrations) >= event.capacity`. -/
def capacityReached (e : Event) (current : Nat) : Bool :=
  match e.capacity with
  | none => false
  | some c => decide (c ≠ 0) && decide (c ≤ current)

/-- The handler of `POST /events/:id/register` in `routes/students.js`, at instant `now`. -/
def registerForEvent (db : Db) (now : Nat) (user : User) (id : Nat) : Db × Response RunBody :=
  match registerLookup db user.college_id id with
  | [] => (db, .fail 404 "Not Found" "Event not found or not available for registration")
  | (event, current) :: _ =>
    if deadlinePassed now event then
      (db, .fail 400 "Bad Request" "Registration deadline has passed")
    else if capacityReached event current then
      (db, .fail 409 "Conflict" "Event is at full capacity")
    else if (db.registrations.filter fun r =>
        decide (r.event_id = id) && decide (r.user_id = user.id)).length > 0 then
      (db, .fail 409 "Conflict" "Already registered for this event")
    else
      let newId := nextId (db.registrations.map (·.id))
      let row : Registration :=
        { id := newId, event_id := id, user_id := user.id, status := "registered"
          registration_date := now }
      ({ db with registrations := db.registrations ++ [row], lastID := newId },
       .json 201 { message := "Successfully registered for event"
                   id := (runRows newId).headD 0 })

/-- The handler of `DELETE /events/:id/register` in `routes/students.js`; the
double-quoted `"registered"` of its first query is read as the string literal. -/
def cancelRegistration (db : Db) (user : User) (id : Nat) : Db × Response RunBody :=
  if (db.registrations.filter fun r =>
      decide (r.event_id = id) && decide (r.user_id = user.id)
        && decide (r.status = "registered")).length = 0 then
    (db, .fail 404 "Not Found" "Registration not found")
  else
    ({ db with registrations := db.registrations.map fun r =>
        if r.event_id = id ∧ r.user_id = user.id then { r with status := "cancelled" } else r },
     .json 200 { message := "Registration cancelled successfully"
                 id := (runRows db.lastID).headD 0 })

/-! ## `middleware/auth.js` -/

/-- The claims `jwt.sign` puts in a token (`routes/auth.js`). -/
structure TokenPayload where
  userId : Nat
  email : String
  role : String
  collegeId : Nat
deriving DecidableEq, Repr

/-- What `jwt.verify(token, secret)` does: it returns the decoded claims or
throws an error with a `name`. -/
inductive VerifyOutcome where
  | decoded (payload : TokenPayload)
  | thrown (name : String)
deriving DecidableEq, Repr

/-- The row `authenticateToken` stores in `req.user`: `u.*` and `c.name`. -/
structure AuthUser where
  user : User
  college_name : String
deriving DecidableEq, Repr

/-- The value of `authHeader && authHeader.split(' ')[1]`; `none` is `undefined`. -/
def extractToken (authHeader : Option String) : Option String :=
  match authHeader with
  | none => none
  | some h =>
    if h = "" then some ""
    else
      match splitSpaces h.toList with
      | _ :: t :: _ => some (String.mk t)
      | _ => none

/-- The rows of the user query of `authenticateToken`. -/
def activeUserRows (db : Db) (userId : Nat) : List AuthUser :=
  ((innerJoin db.users db.colleges (fun u c => decide (u.college_id = c.id))).filter
    fun x => decide (x.1.id = userId) && x.1.is_active).map fun x =>
      { user := x.1, college_name := x.2.name }

/-- The outcome of a middleware: the next handler is called with `req.user`,
or an answer is sent. -/
inductive AuthOutcome where
  | next (user : AuthUser)
  | reject (status : Nat) (error : String) (message : String)
deriving DecidableEq, Repr

/-- The middleware `authenticateToken`, as a function of the `Authorization`
header, of what `jwt.verify` does on a token, and of the database. -/
def authenticateToken (authHeader : Option String) (verify : String → VerifyOutcome)
    (db : Db) : AuthOutcome :=
  match extractToken authHeader with
  | none => .reject 401 "Access denied" "No token provided"
  | some token =>
    if token = "" then .reject 401 "Access denied" "No token provided"
    else
      match verify token with
      | .decoded payload =>
        match activeUserRows db payload.userId with
        | [] => .reject 401 "Access denied" "Invalid token or user not found"
        | row :: _ => .next row
      | .thrown name =>
        if name = "TokenExpiredError" then .reject 401 "Access denied" "Token expired"
        else .reject 403 "Access denied" "Invalid token"

/-- The middleware `requireRole(roles)`, as a function of `req.user`. -/
def requireRole (roles : List String) (reqUser : Option AuthUser) : AuthOutcome :=
  match reqUser with
  | none => .reject 401 "Access denied" "Authentication required"
  | some u =>
    if !roles.contains u.user.role then .reject 403 "Access denied" "Insufficient permissions"
    else .next u

/-- The middleware `requireAdmin`. -/
def requireAdmin : Option AuthUser → AuthOutcome := requireRole ["admin"]

/-- The middleware `requireStudent`. -/
def requireStudent : Option AuthUser → AuthOutcome := requireRole ["student"]

/-- The middleware `requireAnyRole`. -/
def requireAnyRole : Option AuthUser → AuthOutcome := requireRole ["admin", "student"]

/-- The chain `authenticateToken, requireRole(roles)` of a route: the second
middleware runs when the first calls `next()`, with the `req.user` it stored. -/
def authenticateThenRequire (roles : List String) (authHeader : Option String)
    (verify : String → VerifyOutcome) (db : Db) : AuthOutcome :=
  match authenticateToken authHeader verify db with
  | .next u => requireRole roles (some u)
  | .reject status error message => .reject status error message

/-! ## The route declarations -/

/-- The role middleware named in a route declaration, if any. -/
inductive Guard where
  | noGuard
  | requireAdmin
  | requireStudent
  | requireAnyRole
deriving DecidableEq, Repr

/-- The roles a guard lets through; `none` when the route has no role middleware. -/
def Guard.roles : Guard → Option (List String)
  | .noGuard => none
  | .requireAdmin => some ["admin"]
  | .requireStudent => some ["student"]
  | .requireAnyRole => some ["admin", "student"]

/-- A declaration `router.method(path, authenticateToken?, guard?, handler)`. -/
structure Route where
  router : String
  method : String
  path : String
  authenticated : Bool
  guard : Guard
deriving DecidableEq, Repr

/-- The route declarations of `routes/*.js`, file by file. -/
def routeTable : List Route :=
  [ { router := "attendance", method := "POST", path := "/events/:id/checkin"
      authenticated := true, guard := .requireAnyRole },
    { router := "attendance", method := "POST", path := "/events/:id/checkout"
      authenticated := true, guard := .requireAnyRole },
    { router := "attendance", method := "GET", path := "/events/:id"
      authenticated := true, guard := .noGuard },
    { router := "attendance", method := "GET", path := "/events/:id/summary"
      authenticated := true, guard := .noGuard },
    { router := "auth", method := "POST", path := "/register"
      authenticated := false, guard := .noGuard },
    { router := "auth", method := "POST", path := "/login"
      authenticated := false, guard := .noGuard },
    { router := "auth", method := "GET", path := "/profile"
      authenticated := true, guard := .noGuard },
    { router := "auth", method := "POST", path := "/refresh"
      authenticated := true, guard := .noGuard },
    { router := "auth", method := "POST", path := "/logout"
      authenticated := true, guard := .noGuard },
    { router := "events", method := "GET", path := "/"
      authenticated := true, guard := .requireAnyRole },
    { router := "events", method := "GET", path := "/:id"
      authenticated := true, guard := .requireAnyRole },
    { router := "events", method := "POST", path := "/"
      authenticated := true, guard := .requireAdmin },
    { router := "events", method := "PUT", path := "/:id"
      authenticated := true, guard := .requireAdmin },
    { router := "events", method := "PATCH", path := "/:id/status"
      authenticated := true, guard := .requireAdmin },
    { router := "events", method := "DELETE", path := "/:id"
      authenticated := true, guard := .requireAdmin },
    { router := "events", method := "GET", path := "/:id/registrations"
      authenticated := true, guard := .requireAdmin },
    { router := "feedback", method := "POST", path := "/events/:id"
      authenticated := true, guard := .requireStudent },
    { router := "feedback", method := "GET", path := "/events/:id"
      authenticated := true, guard := .noGuard },
    { router := "feedback", method := "GET", path := "/events/:id/summary"
      authenticated := true, guard := .noGuard },
    { router := "feedback", method := "PUT", path := "/events/:id"
      authenticated := true, guard := .requireStudent },
    { router := "feedback", method := "DELETE", path := "/events/:id"
      authenticated := true, guard := .requireStudent },
    { router := "reports", method := "GET", path := "/event-popularity"
      authenticated := true, guard := .requireAdmin },
    { router := "reports", method := "GET", path := "/student-participation"
      authenticated := true, guard := .requireAdmin },
    { router := "reports", method := "GET", path := "/top-active-students"
      authenticated := true, guard := .requireAdmin },
    { router := "reports", method := "GET", path := "/attendance-summary"
      authenticated := true, guard := .requireAdmin },
    { router := "reports", method := "GET", path := "/feedback-summary"
      authenticated := true, guard := .requireAdmin },
    { router := "reports", method := "GET", path := "/flexible"
      authenticated := true, guard := .requireAdmin },
    { router := "reports", method := "GET", path := "/categories"
      authenticated := true, guard := .requireAdmin },
    { router := "students", method := "GET", path := "/events"
      authenticated := true, guard := .requireStudent },
    { router := "students", method := "GET", path := "/events/:id"
      authenticated := true, guard := .requireStudent },
    { router := "students", method := "POST", path := "/events/:id/register"
      authenticated := true, guard := .requireStudent },
    { router := "students", method := "DELETE", path := "/events/:id/register"
      authenticated := true, guard := .requireStudent },
    { router := "students", method := "GET", path := "/registrations"
      authenticated := true, guard := .requireStudent },
    { router := "students", method := "GET", path := "/attendance"
      authenticated := true, guard := .requireStudent } ]

/-! ## The `ORDER BY` text of the endpoints that take `sortBy` and `sortOrder` -/

/-- The pair (column, direction) interpolated by `GET /api/events`. -/
def eventsSort (ops : Ops) (sortBy sortOrder : String) : String × String :=
  (sortColumnOf ["event_date", "title", "created_at", "capacity"] "event_date" sortBy,
   sortDirectionOf ops "ASC" sortOrder)

/-- The pair (column, direction) interpolated by `GET /api/student/events`. -/
def studentEventsSort (ops : Ops) (sortBy sortOrder : String) : String × String :=
  (sortColumnOf ["event_date", "title", "created_at", "capacity"] "event_date" sortBy,
   sortDirectionOf ops "ASC" sortOrder)

/-- The pair (column, direction) interpolated by `GET /api/student/registrations`. -/
def studentRegistrationsSort (ops : Ops) (sortBy sortOrder : String) : String × String :=
  (sortColumnOf ["registration_date", "event_date", "title"] "registration_date" sortBy,
   sortDirectionOf ops "DESC" sortOrder)

/-- The pair (column, direction) interpolated by `GET /api/reports/flexible`. -/
def flexibleSort (ops : Ops) (sortBy sortOrder : String) : String × String :=
  (sortColumnOf ["registration_count", "attendance_count", "average_rating", "event_date"]
    "registration_count" sortBy,
   sortDirectionOf ops "DESC" sortOrder)

/-- The pair (column, direction) interpolated by `GET /api/student/attendance`:
the two query parameters as received. -/
def studentAttendanceSort (sortBy sortOrder : String) : String × String :=
  (sortBy, sortOrder)

/-- The line `ORDER BY a.${sortBy} ${sortOrder}` of `GET /api/student/attendance`. -/
def studentAttendanceOrderBy (sortBy sortOrder : String) : String :=
  "ORDER BY a." ++ (studentAttendanceSort sortBy sortOrder).1 ++ " "
    ++ (studentAttendanceSort sortBy sortOrder).2

/-! ## `routes/attendance.js`: check-in and check-out -/

/-- The date part of `toISOString()` of an instant, as a day number: the UTC
calendar date. -/
def utcDate (t : Nat) : Nat := t / 86400000

/-- The rows of the first query of `POST /events/:id/checkin`: the published
event `id` of the caller's college with the caller's active registrations. -/
def checkInLookup (db : Db) (user : User) (id : Nat) : List (Event × Option Registration) :=
  (leftJoin db.events db.registrations
      (fun e r => decide (e.id = r.event_id) && decide (r.user_id = user.id)
        && decide (r.status = "registered"))).filter
    fun x => decide (x.1.id = id) && decide (x.1.college_id = user.college_id)
      && decide (x.1.status = "published")

/-- The truth value of a NULL-able id in a JavaScript test: NULL and 0 are falsy. -/
def truthyId : Option Nat → Bool
  | none => false
  | some n => decide (n ≠ 0)

/-- The value of `event.event_date.toISOString().split('T')[0]` on a row handed
back by sqlite3, as a day number: the column value is a number or a string,
which has no `toISOString`, so the call throws a TypeError (`none`). -/
def columnIsoDate (_event_date : Nat) : Option Nat := none

/-- The handler of `POST /events/:id/checkin` in `routes/attendance.js`, at
instant `now`. The TypeError of the date test is caught and answered 500. -/
def checkIn (db : Db) (now : Nat) (user : User) (id : Nat) : Db × Response RunBody :=
  match checkInLookup db user id with
  | [] => (db, .fail 404 "Not Found" "Event not found or not available for check-in")
  | (event, reg) :: _ =>
    if !truthyId (reg.map (·.id)) then
      (db, .fail 400 "Bad Request" "You must be registered for this event to check in")
    else
      match columnIsoDate event.event_date with
      | none => (db, .fail 500 "Internal Server Error" "Failed to check in for event")
      | some day =>
        if day ≠ utcDate now then
          (db, .fail 400 "Bad Request" "Check-in is only available on the event date")
        else if (db.attendance.filter fun a =>
            decide (a.event_id = id) && decide (a.user_id = user.id)).length > 0 then
          (db, .fail 409 "Conflict" "Already checked in for this event")
        else
          let newId := nextId (db.attendance.map (·.id))
          let row : Attendance :=
            { id := newId, event_id := id, user_id := user.id, check_in_time := now
              check_out_time := none, status := "present" }
          ({ db with attendance := db.attendance ++ [row], lastID := newId },
           .json 201 { message := "Successfully checked in for event"
                       id := (runRows newId).headD 0 })

/-- The handler of `POST /events/:id/checkout` in `routes/attendance.js`, at instant `now`. -/
def checkOut (db : Db) (now : Nat) (user : User) (id : Nat) : Db × Response RunBody :=
  if ((innerJoin db.attendance db.events (fun a e => decide (a.event_id = e.id))).filter
      fun x => decide (x.1.event_id = id) && decide (x.1.user_id = user.id)
        && x.1.check_out_time.isNone).length = 0 then
    (db, .fail 404 "Not Found" "No active attendance record found for this event")
  else
    ({ db with attendance := db.attendance.map fun a =>
        if a.event_id = id ∧ a.user_id = user.id then { a with check_out_time := some now }
        else a },
     .json 200 { message := "Successfully checked out from event"
                 id := (runRows db.lastID).headD 0 })

/-! ## `routes/feedback.js`: submitting feedback -/

/-- The request body of `POST /events/:id`: `rating` is the JSON number received. -/
structure FeedbackPayload where
  rating : Option ℚ := none
  comment : Option String := none
deriving DecidableEq

/-- A validated feedback body. -/
structure FeedbackValue where
  rating : ℚ
  comment : Option String
deriving DecidableEq

/-- The outcome of `feedbackSchema.validate(req.body)`: the value, or the key of
the first rule that fails. -/
def feedbackSchemaValidate (b : FeedbackPayload) : Except String FeedbackValue :=
  match b.rating with
  | none => .error "rating"
  | some r =>
    if !(decide (r.den = 1) && decide (1 ≤ r) && decide (r ≤ 5)) then .error "rating"
    else if !optStringOk 500 b.comment then .error "comment"
    else .ok { rating := r, comment := b.comment }

/-- The rows of the first query of `POST /events/:id` in `routes/feedback.js`:
the completed event `id` of the caller's college with the caller's attendance rows. -/
def feedbackLookup (db : Db) (user : User) (id : Nat) : List (Event × Option Attendance) :=
  (leftJoin db.events db.attendance
      (fun e a => decide (e.id = a.event_id) && decide (a.user_id = user.id))).filter
    fun x => decide (x.1.id = id) && decide (x.1.college_id = user.college_id)
      && decide (x.1.status = "completed")

/-- The handler of `POST /events/:id` in `routes/feedback.js`, at instant `now`. -/
def submitFeedback (db : Db) (now : Nat) (user : User) (id : Nat) (body : FeedbackPayload) :
    Db × Response RunBody :=
  match feedbackSchemaValidate body with
  | .error key => (db, .fail 400 "Validation Error" key)
  | .ok v =>
    match feedbackLookup db user id with
    | [] => (db, .fail 404 "Not Found" "Event not found or not completed")
    | (_, att) :: _ =>
      if !truthyId (att.map (·.id)) then
        (db, .fail 400 "Bad Request" "You must have attended this event to submit feedback")
      else if (db.feedback.filter fun f =>
          decide (f.event_id = id) && decide (f.user_id = user.id)).length > 0 then
        (db, .fail 409 "Conflict" "Feedback already submitted for this event")
      else
        let newId := nextId (db.feedback.map (·.id))
        let row : Feedback :=
          { id := newId, event_id := id, user_id := user.id, rating := v.rating.num
            comment := v.comment, submitted_at := now }
        ({ db with feedback := db.feedback ++ [row], lastID := newId },
         .json 201 { message := "Feedback submitted successfully"
                     id := (runRows newId).headD 0 })

/-- The feedback row a successful submit stores. -/
def feedbackRow (db : Db) (now : Nat) (user : User) (id : Nat) (v : FeedbackValue) : Feedback :=
  { id := nextId (db.feedback.map (·.id)), event_id := id, user_id := user.id
    rating := v.rating.num, comment := v.comment, submitted_at := now }

/-! ## Sequential runs of student requests -/

/-- The (event, user) pair of a registration row. -/
def Registration.pair (r : Registration) : Nat × Nat := (r.event_id, r.user_id)

/-- The (event, user) pair of an attendance row. -/
def Attendance.pair (a : Attendance) : Nat × Nat := (a.event_id, a.user_id)

/-- A request of a student to one of the four registration and attendance routes. -/
inductive Request where
  | register (now : Nat) (user : User) (id : Nat)
  | cancel (user : User) (id : Nat)
  | checkIn (now : Nat) (user : User) (id : Nat)
  | checkOut (now : Nat) (user : User) (id : Nat)

/-- The database after a request has been served. -/
def Request.serve (db : Db) : Request → Db
  | .register now user id => (registerForEvent db now user id).1
  | .cancel user id => (cancelRegistration db user id).1
  | .checkIn now user id => (Campus.checkIn db now user id).1
  | .checkOut now user id => (Campus.checkOut db now user id).1

/-- The database after a list of requests has been served one after the other. -/
def runRequests (db : Db) (reqs : List Request) : Db := reqs.foldl Request.serve db

/-! ## `routes/events.js`: the status of an event -/

/-- The handler of `PATCH /:id/status` in `routes/events.js`, at instant `now`;
`status` is `req.body.status`, `none` when the body has no such key. -/
def setEventStatus (db : Db) (now : Nat) (user : User) (id : Nat) (status : Option String) :
    Db × Response RunBody :=
  match status with
  | none =>
    (db, .fail 400 "Bad Request"
      "Invalid status. Must be one of: draft, published, cancelled, completed")
  | some st =>
    if (["draft", "published", "cancelled", "completed"].contains st) = false then
      (db, .fail 400 "Bad Request"
        "Invalid status. Must be one of: draft, published, cancelled, completed")
    else
      let db' := { db with events := db.events.map fun e =>
        if e.id = id ∧ e.college_id = user.college_id then
          { e with status := st, updated_at := now }
        else e }
      match runRows db.lastID with
      | [] => (db', .fail 404 "Not Found" "Event not found")
      | r :: _ => (db', .json 200 { message := "Event status updated successfully", id := r })

/-! ## `routes/students.js`: the event listing of a student -/

/-- A value bound to a placeholder of a statement. -/
inductive SqlValue where
  | num (n : Int)
  | text (s : String)
deriving DecidableEq, Repr

/-- The query string of `GET /api/student/events`, with the defaults of the
destructuring. -/
structure StudentEventsQuery where
  page : Nat := 1
  limit : Nat := 10
  categoryId : Option Nat := none
  search : Option String := none
  sortBy : String := "event_date"
  sortOrder : String := "ASC"

/-- The reading of the `WHERE` clause `GET /api/student/events` builds, with
`NOW()` taken as the instant `now` and `ILIKE` through `ops`: what the text
would select on an engine that has both. sqlite3 has no `NOW()` and never
evaluates the clause (`studentEventsPgOnly`). -/
def studentEventsWhere (ops : Ops) (now : Nat) (college_id : Nat) (q : StudentEventsQuery)
    (e : Event) : Bool :=
  decide (e.college_id = college_id) && decide (e.status = "published")
  && (match e.registration_deadline with
      | none => true
      | some d => decide (now < d))
  && (match q.categoryId with
      | some c => decide (e.category_id = c)
      | none => true)
  && (match q.search with
      | some t =>
        if t = "" then true
        else ops.ilike e.title ("%" ++ t ++ "%")
          || (match e.description with
              | some d => ops.ilike d ("%" ++ t ++ "%")
              | none => false)
      | none => true)

/-- The array `queryParams` of `GET /api/student/events` when the `WHERE` clause
is complete: the college id and one entry per filter. -/
def studentEventsFilterParams (user : User) (q : StudentEventsQuery) : List SqlValue :=
  [.num user.college_id]
  ++ (match q.categoryId with
      | some c => [.num c]
      | none => [])
  ++ (match q.search with
      | some t => if t = "" then [] else [.text ("%" ++ t ++ "%")]
      | none => [])

/-- The value of `paramCount` when the `WHERE` clause is complete: the highest
placeholder the clause references. -/
def studentEventsParamCount (user : User) (q : StudentEventsQuery) : Nat :=
  (studentEventsFilterParams user q).length

/-- The array passed with the listing query: `queryParams` after
`push(req.user.id, parseInt(limit), offset)`. -/
def studentEventsQueryParams (user : User) (q : StudentEventsQuery) : List SqlValue :=
  studentEventsFilterParams user q
  ++ [.num user.id, .num q.limit, .num (((q.page : Int) - 1) * q.limit)]

/-- The placeholder compared with `my_reg.user_id` in the listing query: `$1`. -/
def studentEventsUserPlaceholder : Nat := 1

/-- The placeholder after `LIMIT` in the listing query: `$${paramCount + 1}`. -/
def studentEventsLimitPlaceholder (user : User) (q : StudentEventsQuery) : Nat :=
  studentEventsParamCount user q + 1

/-- The placeholder after `OFFSET` in the listing query: `$${paramCount + 2}`. -/
def studentEventsOffsetPlaceholder (user : User) (q : StudentEventsQuery) : Nat :=
  studentEventsParamCount user q + 2

/-- The value bound to placeholder `$k`: the k-th entry of the array. -/
def boundValue (params : List SqlValue) (k : Nat) : Option SqlValue :=
  if k = 0 then none else params.get? (k - 1)

/-- The array passed with the count query: `queryParams.slice(0, -2)`. -/
def studentEventsCountParams (user : User) (q : StudentEventsQuery) : List SqlValue :=
  (studentEventsQueryParams user q).take ((studentEventsQueryParams user q).length - 2)

/-- A row of the listing statement of `GET /api/student/events`. -/
structure StudentEventRow where
  event : Event
  category_name : Option String
  registration_count : Nat
  is_registered : Bool
deriving DecidableEq, Repr

/-- A row of `events e LEFT JOIN event_categories ec LEFT JOIN registrations r
LEFT JOIN registrations my_reg`. -/
abbrev StudentEventJoinRow :=
  ((Event × Option EventCategory) × Option Registration) × Option Registration

/-- The PostgreSQL-only parts of the two statements of `GET /api/student/events`:
`NOW()`, which every `WHERE` clause has, and `ILIKE` when `search` is truthy. -/
def studentEventsPgOnly (q : StudentEventsQuery) : List PgOnly :=
  .now ::
    (match q.search with
      | some t => if t = "" then [] else [.ilike]
      | none => [])

/-- The relational reading of the listing statement of `GET /api/student/events`
with the array bound in order: `$1` (also compared with `my_reg.user_id`) is the
college id, the placeholder after `LIMIT` takes the user id and the one after
`OFFSET` the limit. sqlite3 never runs the statement (`studentEventsPgOnly`). -/
def studentEventRows (ops : Ops) (now : Nat) (db : Db) (user : User) (q : StudentEventsQuery) :
    List StudentEventRow :=
  limitOffset user.id (q.limit : Int)
    (orderBy
      (fun a b : StudentEventRow =>
        eventColumnLe
          (sortColumnOf ["event_date", "title", "created_at", "capacity"] "event_date" q.sortBy)
          a.event b.event)
      (decide (sortDirectionOf ops "ASC" q.sortOrder = "DESC"))
      ((groupBy
          (fun x : StudentEventJoinRow =>
            (x.1.1.1.id, x.1.1.2.map (·.name), x.2.map (·.id)))
          ((leftJoin
              (leftJoin
                (leftJoin db.events db.event_categories
                  (fun e ec => decide (e.category_id = ec.id)))
                db.registrations
                (fun x r => decide (x.1.id = r.event_id) && decide (r.status = "registered")))
              db.registrations
              (fun x r => decide (x.1.1.id = r.event_id)
                && decide (r.user_id = user.college_id)
                && decide (r.status = "registered"))).filter
            fun x => studentEventsWhere ops now user.college_id q x.1.1.1)).filterMap fun g =>
        g.2.head?.map fun x =>
          { event := x.1.1.1, category_name := g.1.2.1
            registration_count := countNonNull g.2 (fun y => y.1.2.map (·.id))
            is_registered := g.1.2.2.isSome }))

/-- The handler of `GET /events` in `routes/students.js`, at instant `now`. A
rejected promise of the listing statement is caught and answered 500. -/
def studentEvents (ops : Ops) (now : Nat) (db : Db) (user : User) (q : StudentEventsQuery) :
    Response (Page StudentEventRow) :=
  match poolQuery (studentEventsPgOnly q) (studentEventRows ops now db user q) with
  | none => .fail 500 "Internal Server Error" "Failed to fetch events"
  | some rows =>
    let total := (db.events.filter (studentEventsWhere ops now user.college_id q)).length
    .json 200 { rows := rows
                pagination := { page := q.page, limit := q.limit, total := total
                                pages := pagesOf total q.limit } }

/-! ## `routes/auth.js`: login -/

/-- The request body of `POST /login`. -/
structure LoginPayload where
  email : Option String := none
  password : Option String := none
deriving DecidableEq, Repr

/-- The outcome of `loginSchema.validate(req.body)`: the pair (email, password),
or the key of the first rule that fails; `isEmail` is the format test of
`Joi.string().email()`. -/
def loginSchemaValidate (isEmail : String → Bool) (b : LoginPayload) :
    Except String (String × String) :=
  match b.email with
  | none => .error "email"
  | some e =>
    if !(decide (e ≠ "") && isEmail e) then .error "email"
    else
      match b.password with
      | none => .error "password"
      | some p => if p = "" then .error "password" else .ok (e, p)

/-- The `user` object of the login answer. -/
structure LoginUser where
  id : Nat
  email : String
  firstName : String
  lastName : String
  studentId : Option String
  role : String
  collegeId : Nat
  collegeName : String
deriving DecidableEq, Repr

/-- The body of the login answer; `token` is the payload signed by `jwt.sign`. -/
structure LoginBody where
  message : String
  user : LoginUser
  token : TokenPayload
deriving DecidableEq, Repr

/-- The rows of the user query of `POST /login`. -/
def loginRows (db : Db) (email : String) : List AuthUser :=
  ((innerJoin db.users db.colleges (fun u c => decide (u.college_id = c.id))).filter
    fun x => decide (x.1.email = email) && x.1.is_active).map fun x =>
      { user := x.1, college_name := x.2.name }

/-- The handler of `POST /login` in `routes/auth.js`; `compare` is
`bcrypt.compare(password, hash)`. -/
def login (isEmail : String → Bool) (compare : String → String → Bool) (db : Db)
    (body : LoginPayload) : Response LoginBody :=
  match loginSchemaValidate isEmail body with
  | .error key => .fail 400 "Validation Error" key
  | .ok (email, password) =>
    match loginRows db email with
    | [] => .fail 401 "Unauthorized" "Invalid email or password"
    | row :: _ =>
      if !compare password row.user.password_hash then
        .fail 401 "Unauthorized" "Invalid email or password"
      else
        .json 200
          { message := "Login successful"
            user := { id := row.user.id, email := row.user.email
                      firstName := row.user.first_name, lastName := row.user.last_name
                      studentId := row.user.student_id, role := row.user.role
                      collegeId := row.user.college_id, collegeName := row.college_name }
            token := { userId := row.user.id, email := row.user.email, role := row.user.role
                       collegeId := row.user.college_id } }

/-- The rows of the listing query of `GET /api/events` in `ORDER BY` order,
before `LIMIT` and `OFFSET`. -/
def sortedEventRows (ops : Ops) (db : Db) (user : User) (q : EventListQuery) : List EventRow :=
  orderBy
    (fun a b : EventRow =>
      eventColumnLe
        (sortColumnOf ["event_date", "title", "created_at", "capacity"] "event_date" q.sortBy)
        a.event b.event)
    (decide (sortDirectionOf ops "ASC" q.sortOrder = "DESC"))
    (eventRows db (eventListWhere ops user.college_id q))

/-- The group key of an event in the event queries when category ids and user
ids are unique. -/
def eventKey (db : Db) (e : Event) : Nat × Option String × Option String :=
  (e.id,
   ((db.event_categories.filter fun ec => decide (e.category_id = ec.id)).head?).map (·.name),
   ((db.users.filter fun u => decide (e.created_by = u.id)).head?).map (·.first_name))

/-! ## Aggregates -/

/-- The value of `AVG(col)` over a group: the mean of the values that are not
NULL, NULL when there is none. -/
def sqlAvg (vals : List (Option Int)) : Option ℚ :=
  match vals.reduceOption with
  | [] => none
  | x :: xs => some ((((x :: xs).sum : Int) : ℚ) / ((x :: xs).length : ℚ))

/-- The value of `COUNT(CASE WHEN f.rating = k THEN 1 END)` over the feedback
side of a group. -/
def starCount (fs : List (Option Feedback)) (k : Int) : Nat :=
  (fs.filter fun f =>
    match f with
    | some f => decide (f.rating = k)
    | none => false).length

/-- The object `rating_distribution`. -/
structure RatingDistribution where
  five_star : Nat
  four_star : Nat
  three_star : Nat
  two_star : Nat
  one_star : Nat
deriving DecidableEq, Repr

/-- The feedback aggregates shared by the two feedback summaries. -/
structure StarSummary where
  total_feedback : Nat
  average_rating : Option ℚ
  five_star_count : Nat
  four_star_count : Nat
  three_star_count : Nat
  two_star_count : Nat
  one_star_count : Nat
  rating_distribution : RatingDistribution
deriving DecidableEq

/-- The entry `total > 0 ? Math.round((count / total) * 100) : 0`; `roundPercent
count total` is the value of `Math.round((count / total) * 100)` on doubles. -/
def distributionEntry (roundPercent : Nat → Nat → Nat) (count total : Nat) : Nat :=
  if total > 0 then roundPercent count total else 0

/-- The aggregates of the feedback summaries over the feedback side of the
joined rows, followed by the `rating_distribution` computed by the handler.
`round2 q` is the value SQLite reports for `ROUND(AVG(col), 2)` when the exact
mean of the column is `q`; SQLite computes it on doubles. -/
def starSummary (roundPercent : Nat → Nat → Nat) (round2 : ℚ → ℚ)
    (fs : List (Option Feedback)) : StarSummary :=
  let total := countNonNull fs (fun f => f.map (·.id))
  { total_feedback := total
    average_rating := (sqlAvg (fs.map fun f => f.map (·.rating))).map round2
    five_star_count := starCount fs 5
    four_star_count := starCount fs 4
    three_star_count := starCount fs 3
    two_star_count := starCount fs 2
    one_star_count := starCount fs 1
    rating_distribution :=
      { five_star := distributionEntry roundPercent (starCount fs 5) total
        four_star := distributionEntry roundPercent (starCount fs 4) total
        three_star := distributionEntry roundPercent (starCount fs 3) total
        two_star := distributionEntry roundPercent (starCount fs 2) total
        one_star := distributionEntry roundPercent (starCount fs 1) total } }

/-! ## `routes/feedback.js`: the feedback summary of an event -/

/-- The `summary` object of `GET /events/:id/summary` in `routes/feedback.js`. -/
structure FeedbackSummary where
  title : String
  event_date : Nat
  stars : StarSummary
deriving DecidableEq

/-- The groups of the summary query: event `id` of the college with its
feedback rows. -/
def feedbackSummaryGroups (db : Db) (college_id id : Nat) :
    List ((Nat × String × Nat) × List (Event × Option Feedback)) :=
  groupBy (fun x : Event × Option Feedback => (x.1.id, x.1.title, x.1.event_date))
    ((leftJoin db.events db.feedback (fun e f => decide (e.id = f.event_id))).filter
      fun x => decide (x.1.id = id) && decide (x.1.college_id = college_id))

/-- The handler of `GET /events/:id/summary` in `routes/feedback.js`. -/
def feedbackEventSummary (roundPercent : Nat → Nat → Nat) (round2 : ℚ → ℚ) (db : Db)
    (user : User) (id : Nat) :
    Response FeedbackSummary :=
  if user.role ≠ "admin" ∧
      (db.attendance.filter fun a =>
        decide (a.event_id = id) && decide (a.user_id = user.id)).length = 0 then
    .fail 403 "Forbidden" "You must have attended this event to view feedback summary"
  else
    match feedbackSummaryGroups db user.college_id id with
    | [] => .fail 404 "Not Found" "Event not found"
    | g :: _ =>
      .json 200 { title := g.1.2.1, event_date := g.1.2.2
                  stars := starSummary roundPercent round2 (g.2.map (·.2)) }

/-! ## `routes/reports.js`: the feedback summary report -/

/-- The optional filters of the summary reports. -/
structure ReportFilter where
  startDate : Option Nat := none
  endDate : Option Nat := none
  categoryId : Option Nat := none

/-- The `WHERE` clause of the summary reports. -/
def reportWhere (college_id : Nat) (flt : ReportFilter) (e : Event) : Bool :=
  decide (e.college_id = college_id)
  && (match flt.startDate with
      | some d => decide (d ≤ e.event_date)
      | none => true)
  && (match flt.endDate with
      | some d => decide (e.event_date ≤ d)
      | none => true)
  && (match flt.categoryId with
      | some c => decide (e.category_id = c)
      | none => true)

/-- The `summary` object of `GET /feedback-summary`. -/
structure FeedbackReport where
  events_with_feedback : Nat
  stars : StarSummary
deriving DecidableEq

/-- The joined rows of the feedback summary report. -/
def feedbackReportRows (db : Db) (college_id : Nat) (flt : ReportFilter) :
    List (Event × Option Feedback) :=
  (leftJoin db.events db.feedback (fun e f => decide (e.id = f.event_id))).filter
    fun x => reportWhere college_id flt x.1

/-- The handler of `GET /feedback-summary` in `routes/reports.js`. -/
def feedbackSummaryReport (roundPercent : Nat → Nat → Nat) (round2 : ℚ → ℚ) (db : Db)
    (user : User) (flt : ReportFilter) : Response FeedbackReport :=
  let rows := feedbackReportRows db user.college_id flt
  .json 200
    { events_with_feedback := ((rows.filterMap fun x => x.2.map (·.event_id)).dedup).length
      stars := starSummary roundPercent round2 (rows.map (·.2)) }

/-! ## `routes/reports.js`: the event reports -/

/-- A row of `events e LEFT JOIN event_categories ec LEFT JOIN registrations r
LEFT JOIN attendance a LEFT JOIN feedback f`. -/
abbrev ReportJoinRow :=
  (((Event × Option EventCategory) × Option Registration) × Option Attendance) × Option Feedback

/-- The `FROM` clause shared by the event popularity and the flexible report. -/
def reportJoin (db : Db) : List ReportJoinRow :=
  leftJoin
    (leftJoin
      (leftJoin
        (leftJoin db.events db.event_categories (fun e ec => decide (e.category_id = ec.id)))
        db.registrations
        (fun x r => decide (x.1.id = r.event_id) && decide (r.status = "registered")))
      db.attendance (fun x a => decide (x.1.1.id = a.event_id)))
    db.feedback (fun x f => decide (x.1.1.1.id = f.event_id))

/-- The group key `e.id, ec.name` of a joined row, a function of its event and
category. -/
def reportKey (b : Event × Option EventCategory) : Nat × Option String :=
  (b.1.id, b.2.map (·.name))

/-- A row of the event popularity and of the flexible report. -/
structure EventReportRow where
  id : Nat
  title : String
  event_date : Nat
  start_time : String
  end_time : String
  location : Option String
  capacity : Option Nat
  status : String
  category_name : Option String
  registration_count : Nat
  attendance_count : Nat
  attendance_percentage_x100 : Nat
  average_rating : Option ℚ
  feedback_count : Nat
deriving DecidableEq

/-- The groups of `GROUP BY e.id, ec.name` over the joined rows whose event and
category pass `WHERE`. -/
def eventReportGroups (db : Db) (wh : Event × Option EventCategory → Bool) :
    List ((Nat × Option String) × List ReportJoinRow) :=
  groupBy (fun x : ReportJoinRow => reportKey x.1.1.1)
    ((reportJoin db).filter fun x => wh x.1.1.1)

/-- The value of `AVG(f.rating)` over a group. -/
def groupAvgRating (g : List ReportJoinRow) : Option ℚ :=
  sqlAvg (g.map fun x => x.2.map (·.rating))

/-- The select list of the two event reports over one group. -/
def eventReportRow (round2 : ℚ → ℚ) (g : (Nat × Option String) × List ReportJoinRow) :
    Option EventReportRow :=
  g.2.head?.map fun x =>
    let regs := countNonNull g.2 (fun y => y.1.1.2.map (·.id))
    let atts := countNonNull g.2 (fun y => y.1.2.map (·.id))
    { id := x.1.1.1.1.id, title := x.1.1.1.1.title, event_date := x.1.1.1.1.event_date
      start_time := x.1.1.1.1.start_time, end_time := x.1.1.1.1.end_time
      location := x.1.1.1.1.location, capacity := x.1.1.1.1.capacity
      status := x.1.1.1.1.status, category_name := g.1.2
      registration_count := regs, attendance_count := atts
      attendance_percentage_x100 := roundedPercentX100 atts regs
      average_rating := (groupAvgRating g.2).map round2
      feedback_count := countNonNull g.2 (fun y => y.2.map (·.id)) }

/-- The rows of the two event reports: the groups that pass `HAVING`. -/
def eventReportRows (round2 : ℚ → ℚ) (db : Db) (wh : Event × Option EventCategory → Bool)
    (having : List ReportJoinRow → Bool) : List EventReportRow :=
  ((eventReportGroups db wh).filter fun g => having g.2).filterMap (eventReportRow round2)

/-- The query string of `GET /event-popularity`. -/
structure PopularityQuery where
  page : Nat := 1
  limit : Nat := 20
  categoryId : Option Nat := none
  startDate : Option Nat := none
  endDate : Option Nat := none
  sortOrder : String := "DESC"

/-- The `WHERE` clause of `GET /event-popularity`. -/
def popularityWhere (college_id : Nat) (q : PopularityQuery) (e : Event) : Bool :=
  decide (e.college_id = college_id)
  && (match q.categoryId with
      | some c => decide (e.category_id = c)
      | none => true)
  && (match q.startDate with
      | some d => decide (d ≤ e.event_date)
      | none => true)
  && (match q.endDate with
      | some d => decide (e.event_date ≤ d)
      | none => true)

/-- The handler of `GET /event-popularity` in `routes/reports.js`. The text of
its statement has `COUNT(a.id)::float`; a rejected promise is caught and
answered 500. -/
def eventPopularity (ops : Ops) (round2 : ℚ → ℚ) (db : Db) (user : User)
    (q : PopularityQuery) :
    Response (Page EventReportRow) :=
  let offset : Int := ((q.page : Int) - 1) * q.limit
  let wh := popularityWhere user.college_id q
  let sortDirection := sortDirectionOf ops "DESC" q.sortOrder
  match poolQuery [.cast] (limitOffset q.limit offset
    (orderBy (fun a b : EventReportRow => decide (a.registration_count ≤ b.registration_count))
      (decide (sortDirection = "DESC"))
      (eventReportRows round2 db (fun b => wh b.1) (fun _ => true)))) with
  | none => .fail 500 "Internal Server Error" "Failed to generate event popularity report"
  | some rows =>
    let total := (db.events.filter wh).length
    .json 200 { rows := rows
                pagination := { page := q.page, limit := q.limit, total := total
                                pages := pagesOf total q.limit } }

/-- The query string of `GET /flexible`. -/
structure FlexibleQuery where
  eventType : Option String := none
  startDate : Option Nat := none
  endDate : Option Nat := none
  minRegistrations : Nat := 0
  minAttendance : Nat := 0
  minRating : ℚ := 0
  sortBy : String := "registration_count"
  sortOrder : String := "DESC"

/-- The `WHERE` clause of `GET /flexible`; `ec.name ILIKE` is not true on a NULL name. -/
def flexibleWhere (ops : Ops) (college_id : Nat) (q : FlexibleQuery)
    (b : Event × Option EventCategory) : Bool :=
  decide (b.1.college_id = college_id)
  && (match q.eventType with
      | some t =>
        if t = "" then true
        else
          match b.2 with
          | some ec => ops.ilike ec.name ("%" ++ t ++ "%")
          | none => false
      | none => true)
  && (match q.startDate with
      | some d => decide (d ≤ b.1.event_date)
      | none => true)
  && (match q.endDate with
      | some d => decide (b.1.event_date ≤ d)
      | none => true)

/-- The `HAVING` clause of `GET /flexible`. -/
def flexibleHaving (q : FlexibleQuery) (g : List ReportJoinRow) : Bool :=
  decide (q.minRegistrations ≤ countNonNull g (fun y => y.1.1.2.map (·.id)))
  && decide (q.minAttendance ≤ countNonNull g (fun y => y.1.2.map (·.id)))
  && (match groupAvgRating g with
      | none => true
      | some avg => decide (q.minRating ≤ avg))

/-- Comparison of two NULL-able numbers in an `ORDER BY`, NULL first. -/
def optRatLe : Option ℚ → Option ℚ → Bool
  | none, _ => true
  | some _, none => false
  | some a, some b => decide (a ≤ b)

/-- Comparison of two report rows on a column of the allowlist of `GET /flexible`. -/
def reportColumnLe (col : String) (a b : EventReportRow) : Bool :=
  if col = "attendance_count" then decide (a.attendance_count ≤ b.attendance_count)
  else if col = "average_rating" then optRatLe a.average_rating b.average_rating
  else if col = "event_date" then decide (a.event_date ≤ b.event_date)
  else decide (a.registration_count ≤ b.registration_count)

/-- The body of the flexible report: the rows and their number. -/
structure FlexibleBody where
  events : List EventReportRow
  total : Nat
deriving DecidableEq

/-- The PostgreSQL-only parts of the statement of `GET /flexible`:
`COUNT(a.id)::float`, and `ILIKE` when `eventType` is truthy. -/
def flexiblePgOnly (q : FlexibleQuery) : List PgOnly :=
  .cast ::
    (match q.eventType with
      | some t => if t = "" then [] else [.ilike]
      | none => [])

/-- The handler of `GET /flexible` in `routes/reports.js`. A rejected promise is
caught and answered 500. -/
def flexibleReport (ops : Ops) (round2 : ℚ → ℚ) (db : Db) (user : User) (q : FlexibleQuery) :
    Response FlexibleBody :=
  match poolQuery (flexiblePgOnly q)
    (orderBy (fun a b : EventReportRow => reportColumnLe (flexibleSort ops q.sortBy q.sortOrder).1 a b)
      (decide ((flexibleSort ops q.sortBy q.sortOrder).2 = "DESC"))
      (eventReportRows round2 db (flexibleWhere ops user.college_id q) (flexibleHaving q))) with
  | none => .fail 500 "Internal Server Error" "Failed to generate flexible report"
  | some rows => .json 200 { events := rows, total := rows.length }

/-! ## `routes/reports.js`: the student reports -/

/-- A row of `users u LEFT JOIN registrations r LEFT JOIN attendance a
LEFT JOIN feedback f`. -/
abbrev ParticipationJoinRow :=
  ((User × Option Registration) × Option Attendance) × Option Feedback

/-- The `FROM` clause shared by the student participation and the top active
students report. -/
def participationJoin (db : Db) : List ParticipationJoinRow :=
  leftJoin
    (leftJoin
      (leftJoin db.users db.registrations
        (fun u r => decide (u.id = r.user_id) && decide (r.status = "registered")))
      db.attendance (fun x a => decide (x.1.id = a.user_id)))
    db.feedback (fun x f => decide (x.1.1.id = f.user_id))

/-- The value of `COUNT(DISTINCT col)` over a group. -/
def countDistinct (vals : List (Option Nat)) : Nat := vals.reduceOption.dedup.length

/-- The group key `u.id, u.first_name, u.last_name, u.email, u.student_id`. -/
def participationKey (u : User) : Nat × String × String × String × Option String :=
  (u.id, u.first_name, u.last_name, u.email, u.student_id)

/-- A row of the two student reports. -/
structure ParticipationRow where
  id : Nat
  first_name : String
  last_name : String
  email : String
  student_id : Option String
  total_registrations : Nat
  total_attendance : Nat
  total_feedback : Nat
  attendance_percentage_x100 : Nat
  average_feedback_rating : Option ℚ
deriving DecidableEq

/-- The groups of the two student reports: the students of the college. -/
def participationGroups (db : Db) (college_id : Nat) :
    List ((Nat × String × String × String × Option String) × List ParticipationJoinRow) :=
  groupBy (fun x : ParticipationJoinRow => participationKey x.1.1.1)
    ((participationJoin db).filter fun x =>
      decide (x.1.1.1.college_id = college_id) && decide (x.1.1.1.role = "student"))

/-- The select list of the two student reports over one group. -/
def participationRow (round2 : ℚ → ℚ)
    (g : (Nat × String × String × String × Option String) × List ParticipationJoinRow) :
    ParticipationRow :=
  let regs := countDistinct (g.2.map fun y => y.1.1.2.map (·.event_id))
  let atts := countDistinct (g.2.map fun y => y.1.2.map (·.event_id))
  { id := g.1.1, first_name := g.1.2.1, last_name := g.1.2.2.1, email := g.1.2.2.2.1
    student_id := g.1.2.2.2.2
    total_registrations := regs, total_attendance := atts
    total_feedback := countDistinct (g.2.map fun y => y.2.map (·.event_id))
    attendance_percentage_x100 := roundedPercentX100 atts regs
    average_feedback_rating := (sqlAvg (g.2.map fun y => y.2.map (·.rating))).map round2 }

/-- The rows of the two student reports before `HAVING`, `ORDER BY` and `LIMIT`. -/
def participationRows (round2 : ℚ → ℚ) (db : Db) (college_id : Nat) : List ParticipationRow :=
  (participationGroups db college_id).map (participationRow round2)

/-- The query string of `GET /student-participation`. -/
structure ParticipationQuery where
  page : Nat := 1
  limit : Nat := 20
  sortOrder : String := "DESC"
  minEvents : Nat := 0

/-- The total of the count query of `GET /student-participation`. -/
def participationTotal (db : Db) (college_id minEvents : Nat) : Nat :=
  ((groupBy (fun x : User × Option Attendance => x.1.id)
      ((leftJoin db.users db.attendance (fun u a => decide (u.id = a.user_id))).filter fun x =>
        decide (x.1.college_id = college_id) && decide (x.1.role = "student"))).filter fun g =>
    decide (minEvents ≤ countDistinct (g.2.map fun y => y.2.map (·.event_id)))).length

/-- The handler of `GET /student-participation` in `routes/reports.js`. The text
of its statement has `COUNT(DISTINCT a.event_id)::float`; a rejected promise is
caught and answered 500. -/
def studentParticipation (ops : Ops) (round2 : ℚ → ℚ) (db : Db) (user : User)
    (q : ParticipationQuery) :
    Response (Page ParticipationRow) :=
  let offset : Int := ((q.page : Int) - 1) * q.limit
  let sortDirection := sortDirectionOf ops "DESC" q.sortOrder
  match poolQuery [.cast] (limitOffset q.limit offset
    (orderBy (fun a b : ParticipationRow => decide (a.total_attendance ≤ b.total_attendance))
      (decide (sortDirection = "DESC"))
      ((participationRows round2 db user.college_id).filter fun row =>
        decide (q.minEvents ≤ row.total_attendance)))) with
  | none =>
    .fail 500 "Internal Server Error" "Failed to generate student participation report"
  | some rows =>
    let total := participationTotal db user.college_id q.minEvents
    .json 200 { rows := rows
                pagination := { page := q.page, limit := q.limit, total := total
                                pages := pagesOf total q.limit } }

/-- The body of the top active students report. -/
structure TopStudentsBody where
  students : List ParticipationRow
  limit : Nat
deriving DecidableEq

/-- The handler of `GET /top-active-students` in `routes/reports.js`, with
`limit` of the query string (default 3). The text of its statement has
`COUNT(DISTINCT a.event_id)::float`; a rejected promise is caught and answered
500. -/
def topActiveStudents (round2 : ℚ → ℚ) (db : Db) (user : User) (limit : Nat) :
    Response TopStudentsBody :=
  match poolQuery [.cast]
    ((orderBy
      (fun a b : ParticipationRow =>
        decide (a.total_attendance < b.total_attendance)
        || (decide (a.total_attendance = b.total_attendance)
            && decide (a.total_registrations ≤ b.total_registrations)))
      true (participationRows round2 db user.college_id)).take limit) with
  | none =>
    .fail 500 "Internal Server Error" "Failed to generate top active students report"
  | some students => .json 200 { students := students, limit := limit }

/-! ## Notions of the specification -/

/-- The number of registration rows of event `id` with status `registered`. -/
def activeRegistrations (db : Db) (id : Nat) : Nat :=
  (db.registrations.filter fun r => decide (r.event_id = id) && decide (r.status = "registered")).length

/-- The number of attendance rows of event `id`. -/
def attendanceRows (db : Db) (id : Nat) : Nat :=
  (db.attendance.filter fun a => decide (a.event_id = id)).length

/-- The calendar date, as a day number, that a clock `offset` milliseconds ahead
of UTC shows at an instant: the date in server-local time. -/
def localDate (offset : Int) (t : Nat) : Int := ((t : Int) + offset) / 86400000

/-- The number of attendance rows of a pair (event, user). -/
def attendanceOfPair (db : Db) (event_id user_id : Nat) : Nat :=
  (db.attendance.filter fun a => decide (a.event_id = event_id) && decide (a.user_id = user_id)).length

/-- The number of registration rows of a pair (event, user) with status `registered`. -/
def activeOfPair (db : Db) (event_id user_id : Nat) : Nat :=
  (db.registrations.filter fun r => decide (r.event_id = event_id)
    && decide (r.user_id = user_id) && decide (r.status = "registered")).length

/-- The value of an ASCII digit. -/
def digitValue (c : Char) : Nat := c.toNat - '0'.toNat

/-- The minute of the day written by an `H:MM` or `HH:MM` string. -/
def minutesOfDay (s : String) : Option Nat :=
  match s.toList with
  | [h, ':', m1, m2] => some (digitValue h * 60 + digitValue m1 * 10 + digitValue m2)
  | [h1, h2, ':', m1, m2] =>
    some ((digitValue h1 * 10 + digitValue h2) * 60 + digitValue m1 * 10 + digitValue m2)
  | _ => none

/-! ## Sample data -/

def collegeA : College := { id := 1, name := "Tech University" }

def collegeB : College := { id := 2, name := "State College" }

def adminA : User :=
  { id := 1, college_id := 1, email := "admin@techuniv.edu", first_name := "Ada"
    last_name := "Admin", student_id := none, role := "admin", is_active := true }

def studentA : User :=
  { id := 2, college_id := 1, email := "student1@techuniv.edu", first_name := "Sam"
    last_name := "Student", student_id := some "S001", role := "student", is_active := true }

def studentB : User :=
  { id := 3, college_id := 2, email := "student1@state.edu", first_name := "Bo"
    last_name := "Other", student_id := some "B001", role := "student", is_active := true }

def studentC : User :=
  { id := 4, college_id := 2, email := "student2@state.edu", first_name := "Cy"
    last_name := "Late", student_id := some "B002", role := "student", is_active := true }

/-- A published event of college 1 without capacity or deadline. -/
def talk : Event :=
  { id := 1, college_id := 1, category_id := 1, title := "Talk", description := none
    event_date := 5000, start_time := "10:00", end_time := "12:00", location := none
    capacity := none, registration_deadline := none, created_by := 1, status := "published"
    created_at := 0, updated_at := 0 }

/-- A published event of college 2 with one seat. -/
def seminar : Event :=
  { id := 2, college_id := 2, category_id := 1, title := "Seminar", description := none
    event_date := 5000, start_time := "14:00", end_time := "15:00", location := none
    capacity := some 1, registration_deadline := none, created_by := 1, status := "published"
    created_at := 0, updated_at := 0 }

/-- One college-1 event, nobody registered. -/
def baseDb : Db :=
  { colleges := [collegeA, collegeB], users := [adminA, studentA, studentB, studentC]
    event_categories := [{ id := 1, name := "Workshop" }], events := [talk]
    registrations := [], attendance := [], lastID := 0 }

/-- Active registrations of `n` distinct users for one event. -/
def regsOf (event_id n : Nat) : List Registration :=
  (List.range n).map fun i =>
    { id := i + 1, event_id := event_id, user_id := i + 10, status := "registered"
      registration_date := 0 }

/-- Attendance rows of `n` distinct users for one event. -/
def attsOf (event_id n : Nat) : List Attendance :=
  (List.range n).map fun i =>
    { id := i + 1, event_id := event_id, user_id := i + 10, check_in_time := 0
      check_out_time := none, status := "present" }

/-- The event `talk` with 10 active registrations and 4 attendance rows. -/
def tenFourDb : Db := { baseDb with registrations := regsOf 1 10, attendance := attsOf 1 4 }

/-- The event `talk` with 2 active registrations and 3 attendance rows. -/
def twoThreeDb : Db := { baseDb with registrations := regsOf 1 2, attendance := attsOf 1 3 }

/-- The college-2 event `seminar`, full: student B is registered and attended. -/
def rosterDb : Db :=
  { baseDb with
    events := [talk, seminar]
    registrations :=
      [{ id := 1, event_id := 2, user_id := 3, status := "registered", registration_date := 10 }]
    attendance :=
      [{ id := 1, event_id := 2, user_id := 3, check_in_time := 20, check_out_time := none
         status := "present" }] }

/-- The event `seminar` with a registration deadline at instant 50. -/
def lateDb : Db :=
  { rosterDb with events := [talk, { seminar with registration_deadline := some 50 }] }

/-- A body the schema accepts, from 9:00 to 10:00. -/
def morningBody : EventPayload :=
  { title := some "Test API Event", eventDate := some 9000, startTime := some "9:00"
    endTime := some "10:00", categoryId := some 1 }

/-- A body the schema accepts, from 10:00 to 9:30. -/
def backwardBody : EventPayload :=
  { morningBody with startTime := some "10:00", endTime := some "9:30" }

/-- A body the schema accepts, from 12:00 to 10:00. -/
def noonBody : EventPayload :=
  { morningBody with startTime := some "12:00", endTime := some "10:00" }

/-- Student A holds an active registration for `talk`. -/
def registeredDb : Db :=
  { baseDb with
    registrations :=
      [{ id := 1, event_id := 1, user_id := 2, status := "registered", registration_date := 10 }] }

/-- The event `talk` dated at the first instant of UTC day 10. -/
def dayTen : Event := { talk with event_date := 864000000 }

/-- Student A holds an active registration for `dayTen`. -/
def dayTenDb : Db := { registeredDb with events := [dayTen] }

/-- A completed event of college 1. -/
def gala : Event := { talk with id := 3, title := "Gala", status := "completed" }

/-- Student A attended `gala`. -/
def galaDb : Db :=
  { baseDb with
    events := [talk, gala]
    attendance :=
      [{ id := 1, event_id := 3, user_id := 2, check_in_time := 20, check_out_time := some 30
         status := "present" }] }

/-- Student A is registered for `talk` and has an attendance row for it, not yet
checked out. -/
def checkedInDb : Db :=
  { registeredDb with
    attendance :=
      [{ id := 1, event_id := 1, user_id := 2, check_in_time := 200, check_out_time := none
         status := "present" }] }

/-- Student A registered for `talk` and cancelled. -/
def cancelledDb : Db :=
  { baseDb with
    registrations :=
      [{ id := 1, event_id := 1, user_id := 2, status := "cancelled", registration_date := 10 }] }

/-- The event `seminar` with a registration deadline at instant 500. -/
def seminarSoon : Event := { seminar with registration_deadline := some 500 }

/-- The events `talk` and `seminarSoon`. -/
def soonDb : Db := { baseDb with events := [talk, seminarSoon] }

/-- A format test for sample data: the string has an at sign. -/
def sampleIsEmail (s : String) : Bool := s.toList.contains '@'

/-- A hash comparison for sample data: the hash is the password after `hash:`. -/
def sampleCompare (password hash : String) : Bool := decide (hash = "hash:" ++ password)

/-- The admin of college 1 has a stored password hash. -/
def loginDb : Db :=
  { baseDb with users := [{ adminA with password_hash := "hash:admin123" }, studentA] }

/-- A rounding for sample data: two decimals of the exact number, ties away from
zero. -/
def exactRound2 (q : ℚ) : ℚ :=
  if 0 ≤ q then ((⌊q * 100 + 1 / 2⌋ : ℤ) : ℚ) / 100
  else -(((⌊-q * 100 + 1 / 2⌋ : ℤ) : ℚ) / 100)

/-- A rounding for sample data: count / total * 100 on exact quotients, ties up. -/
def halfUpPercent (count total : Nat) : Nat := (200 * count + total) / (2 * total)

def ratedA : Feedback :=
  { id := 1, event_id := 3, user_id := 2, rating := 5, comment := none, submitted_at := 50 }

def ratedB : Feedback :=
  { id := 2, event_id := 3, user_id := 10, rating := 5, comment := none, submitted_at := 60 }

def ratedC : Feedback :=
  { id := 3, event_id := 3, user_id := 11, rating := 4, comment := some "Fine"
    submitted_at := 70 }

/-- The completed event `gala` with three feedback rows. -/
def ratedDb : Db := { galaDb with feedback := [ratedA, ratedB, ratedC] }

/-- The event `talk` with three attendance rows and no registration. -/
def walkInDb : Db := { baseDb with attendance := attsOf 1 3 }

/-- The completed event `gala` with 2 active registrations, 3 attendance rows
and three feedback rows rated 5, 5 and 4. -/
def crowdDb : Db := { ratedDb with registrations := regsOf 3 2, attendance := attsOf 3 3 }

/-- A second published event of college 1, on the same day as `talk`. -/
def workshop : Event := { talk with id := 5, title := "Workshop" }

/-- The two published events of college 1, no registration and no attendance. -/
def twoEventsDb : Db := { baseDb with events := [talk, workshop] }

/-! ## Lemmas on the relational operators -/

section RelationalLemmas

variable {α β κ : Type}

theorem mem_leftJoin_fst {l : List α} {r : List β} {cond : α → β → Bool} {x : α × Option β}
    (h : x ∈ leftJoin l r cond) : x.1 ∈ l := by
  unfold leftJoin at h
  obtain ⟨a, ha, hx⟩ := List.mem_flatMap.1 h
  split at hx
  · simp at hx
    subst hx
    exact ha
  · obtain ⟨b, _, hb⟩ := List.mem_map.1 hx
    subst hb
    exact ha

theorem exists_mem_leftJoin {l : List α} (r : List β) (cond : α → β → Bool) {a : α}
    (h : a ∈ l) : ∃ x ∈ leftJoin l r cond, x.1 = a := by
  unfold leftJoin
  cases hm : r.filter (cond a) with
  | nil =>
    refine ⟨(a, none), List.mem_flatMap.2 ⟨a, h, ?_⟩, rfl⟩
    simp [hm]
  | cons b ms =>
    refine ⟨(a, some b), List.mem_flatMap.2 ⟨a, h, ?_⟩, rfl⟩
    simp [hm]

theorem mem_groupBy [DecidableEq κ] {key : α → κ} {rows : List α} {g : κ × List α} :
    g ∈ groupBy key rows ↔
      g.1 ∈ rows.map key ∧ g.2 = rows.filter fun x => decide (key x = g.1) := by
  unfold groupBy
  constructor
  · intro h
    obtain ⟨k, hk, hg⟩ := List.mem_map.1 h
    subst hg
    exact ⟨List.mem_dedup.1 hk, rfl⟩
  · rintro ⟨h1, h2⟩
    refine List.mem_map.2 ⟨g.1, List.mem_dedup.2 h1, ?_⟩
    rw [← h2]

theorem groupBy_head [DecidableEq κ] {key : α → κ} {rows : List α} {g : κ × List α}
    (h : g ∈ groupBy key rows) : ∃ x, g.2.head? = some x ∧ x ∈ rows ∧ key x = g.1 := by
  obtain ⟨h1, h2⟩ := mem_groupBy.1 h
  obtain ⟨y, hy, hk⟩ := List.mem_map.1 h1
  have hmem : y ∈ g.2 := by
    rw [h2]
    exact List.mem_filter.2 ⟨hy, by simp [hk]⟩
  cases hg : g.2 with
  | nil => rw [hg] at hmem; simp at hmem
  | cons x xs =>
    refine ⟨x, rfl, ?_⟩
    have hx : x ∈ rows.filter fun z => decide (key z = g.1) := by
      rw [← h2, hg]
      exact List.mem_cons_self _ _
    have := List.mem_filter.1 hx
    exact ⟨this.1, by simpa using this.2⟩

theorem groupBy_eq_nil [DecidableEq κ] {key : α → κ} {rows : List α} :
    groupBy key rows = [] ↔ rows = [] := by
  constructor
  · intro h
    cases rows with
    | nil => rfl
    | cons x xs =>
      have : (key x, (x :: xs).filter fun z => decide (key z = key x)) ∈ groupBy key (x :: xs) :=
        mem_groupBy.2 ⟨List.mem_map.2 ⟨x, List.mem_cons_self _ _, rfl⟩, rfl⟩
      rw [h] at this
      simp at this
  · intro h
    subst h
    rfl

end RelationalLemmas

/-- Every row of the event queries shows an event of the table that passes `WHERE`. -/
theorem mem_eventJoin_e {db : Db} {x : EventJoinRow} (h : x ∈ eventJoin db) :
    x.e ∈ db.events :=
  mem_leftJoin_fst (mem_leftJoin_fst (mem_leftJoin_fst (mem_leftJoin_fst h)))

theorem exists_mem_eventJoin {db : Db} {e : Event} (h : e ∈ db.events) :
    ∃ x ∈ eventJoin db, x.e = e := by
  obtain ⟨x1, h1, e1⟩ := exists_mem_leftJoin db.event_categories
    (fun e ec => decide (e.category_id = ec.id)) h
  obtain ⟨x2, h2, e2⟩ := exists_mem_leftJoin db.users
    (fun (x : Event × Option EventCategory) u => decide (x.1.created_by = u.id)) h1
  obtain ⟨x3, h3, e3⟩ := exists_mem_leftJoin db.registrations
    (fun (x : (Event × Option EventCategory) × Option User) r =>
      decide (x.1.1.id = r.event_id) && decide (r.status = "registered")) h2
  obtain ⟨x4, h4, e4⟩ := exists_mem_leftJoin db.attendance
    (fun (x : ((Event × Option EventCategory) × Option User) × Option Registration) a =>
      decide (x.1.1.1.id = a.event_id)) h3
  refine ⟨x4, h4, ?_⟩
  simp only [EventJoinRow.e, e4, e3, e2, e1]

theorem mem_eventRows {db : Db} {wh : Event → Bool} {row : EventRow}
    (h : row ∈ eventRows db wh) : row.event ∈ db.events ∧ wh row.event = true := by
  unfold eventRows at h
  obtain ⟨g, hg, hrow⟩ := List.mem_filterMap.1 h
  obtain ⟨x, hx, hmem, -⟩ := groupBy_head hg
  rw [hx] at hrow
  simp only [Option.map_some', Option.some.injEq] at hrow
  subst hrow
  have := List.mem_filter.1 hmem
  exact ⟨mem_eventJoin_e this.1, this.2⟩

theorem eventRows_eq_nil {db : Db} {wh : Event → Bool} :
    eventRows db wh = [] ↔ ∀ e ∈ db.events, wh e = false := by
  unfold eventRows
  rw [List.filterMap_eq_nil_iff]
  constructor
  · intro h e he
    by_contra hwh
    obtain ⟨x, hx, hxe⟩ := exists_mem_eventJoin he
    have hxf : x ∈ (eventJoin db).filter fun x => wh x.e :=
      List.mem_filter.2 ⟨hx, by simpa [hxe] using hwh⟩
    have hne : groupBy (fun x : EventJoinRow => (x.e.id, x.ecName, x.uFirstName))
        ((eventJoin db).filter fun x => wh x.e) ≠ [] := by
      intro hnil
      rw [groupBy_eq_nil.1 hnil] at hxf
      simp at hxf
    obtain ⟨g, hg⟩ := List.exists_mem_of_ne_nil _ hne
    obtain ⟨y, hy, -, -⟩ := groupBy_head hg
    have := h g hg
    rw [hy] at this
    simp at this
  · intro h g hg
    obtain ⟨y, -, hmem, -⟩ := groupBy_head hg
    have := List.mem_filter.1 hmem
    have h2 := h _ (mem_eventJoin_e this.1)
    rw [h2] at this
    simp at this

/-- The user query of `authenticateToken` is empty exactly when no active user
with that id has a college row. -/
theorem activeUserRows_eq_nil {db : Db} {userId : Nat} :
    activeUserRows db userId = [] ↔
      ¬ ∃ u ∈ db.users, u.id = userId ∧ u.is_active = true ∧
          ∃ c ∈ db.colleges, c.id = u.college_id := by
  unfold activeUserRows innerJoin
  rw [List.map_eq_nil_iff, List.filter_eq_nil_iff]
  constructor
  · rintro h ⟨u, hu, hid, hact, c, hc, hcu⟩
    have hx : (u, c) ∈ db.users.flatMap fun a =>
        (db.colleges.filter fun c => decide (a.college_id = c.id)).map fun b => (a, b) :=
      List.mem_flatMap.2 ⟨u, hu, List.mem_map.2
        ⟨c, List.mem_filter.2 ⟨hc, by simp [hcu]⟩, rfl⟩⟩
    have := h _ hx
    simp [hid, hact] at this
  · intro h x hx hp
    obtain ⟨u, hu, hxu⟩ := List.mem_flatMap.1 hx
    obtain ⟨c, hc, hxc⟩ := List.mem_map.1 hxu
    subst hxc
    have hc' := List.mem_filter.1 hc
    simp only [Bool.and_eq_true, decide_eq_true_eq] at hp
    exact h ⟨u, hu, hp.1, hp.2, c, hc'.1, by simpa [eq_comm] using hc'.2⟩

/-- Every row of the user query of `authenticateToken` is an active user of the
table with the requested id. -/
theorem mem_activeUserRows {db : Db} {userId : Nat} {row : AuthUser}
    (h : row ∈ activeUserRows db userId) :
    row.user ∈ db.users ∧ row.user.id = userId ∧ row.user.is_active = true := by
  unfold activeUserRows innerJoin at h
  obtain ⟨x, hx, hrow⟩ := List.mem_map.1 h
  subst hrow
  obtain ⟨hx1, hx2⟩ := List.mem_filter.1 hx
  obtain ⟨u, hu, hxu⟩ := List.mem_flatMap.1 hx1
  obtain ⟨c, -, hxc⟩ := List.mem_map.1 hxu
  subst hxc
  simp only [Bool.and_eq_true, decide_eq_true_eq] at hx2
  exact ⟨hu, hx2.1, hx2.2⟩

section LookupLemmas

variable {α β κ : Type}

theorem leftJoin_filter_fst (l : List α) (r : List β) (cond : α → β → Bool) (q : α → Bool) :
    (leftJoin l r cond).filter (fun x => q x.1) = leftJoin (l.filter q) r cond := by
  induction l with
  | nil => rfl
  | cons a l ih =>
    have hcons : ∀ (a : α) (l : List α), leftJoin (a :: l) r cond =
        (match r.filter (cond a) with
          | [] => [(a, none)]
          | ms => ms.map fun b => (a, some b)) ++ leftJoin l r cond := by
      intro a l
      simp [leftJoin]
    rw [hcons, List.filter_append, ih]
    by_cases hq : q a = true
    · rw [List.filter_cons_of_pos hq, hcons]
      congr 1
      apply List.filter_eq_self.2
      intro x hx
      split at hx
      · simp at hx
        subst hx
        exact hq
      · obtain ⟨b, _, hb⟩ := List.mem_map.1 hx
        subst hb
        exact hq
    · rw [List.filter_cons_of_neg hq]
      have : List.filter (fun x : α × Option β => q x.1)
          (match r.filter (cond a) with
            | [] => [(a, none)]
            | ms => ms.map fun b => (a, some b)) = [] := by
        apply List.filter_eq_nil_iff.2
        intro x hx
        split at hx
        · simp at hx
          subst hx
          exact hq
        · obtain ⟨b, _, hb⟩ := List.mem_map.1 hx
          subst hb
          exact hq
      rw [this, List.nil_append]

theorem filter_key_eq_singleton [DecidableEq κ] (key : α → κ) {l : List α} {a : α}
    (hnd : (l.map key).Nodup) (ha : a ∈ l) :
    l.filter (fun e => decide (key e = key a)) = [a] := by
  induction l with
  | nil => simp at ha
  | cons x xs ih =>
    rw [List.map_cons, List.nodup_cons] at hnd
    rcases List.mem_cons.1 ha with rfl | hmem
    · have hrest : xs.filter (fun e => decide (key e = key a)) = [] := by
        apply List.filter_eq_nil_iff.2
        intro e he hk
        exact hnd.1 (List.mem_map.2 ⟨e, he, by simpa using hk⟩)
      simp [List.filter_cons, hrest]
    · have hx : key x ≠ key a := fun h =>
        hnd.1 (List.mem_map.2 ⟨a, hmem, h.symm⟩)
      simp [List.filter_cons, hx, ih hnd.2 hmem]

theorem dedup_const [DecidableEq κ] {k : κ} :
    ∀ l : List κ, l ≠ [] → (∀ x ∈ l, x = k) → l.dedup = [k]
  | [], h, _ => absurd rfl h
  | [x], _, hall => by
    rw [hall x (List.mem_cons_self _ _)]
    rfl
  | x :: y :: ys, _, hall => by
    have hx : x = k := hall x (List.mem_cons_self _ _)
    have hy : y = k := hall y (List.mem_cons_of_mem _ (List.mem_cons_self _ _))
    have ih := dedup_const (y :: ys) (List.cons_ne_nil _ _)
      (fun z hz => hall z (List.mem_cons_of_mem _ hz))
    rw [List.dedup_cons_of_mem (by rw [hx, hy]; exact List.mem_cons_self _ _), ih]

theorem groupBy_const [DecidableEq κ] {key : α → κ} {rows : List α} {k : κ}
    (hne : rows ≠ []) (hall : ∀ x ∈ rows, key x = k) : groupBy key rows = [(k, rows)] := by
  unfold groupBy
  rw [dedup_const (rows.map key) (by simpa using hne)
    (fun x hx => by
      obtain ⟨y, hy, rfl⟩ := List.mem_map.1 hx
      exact hall y hy)]
  simp only [List.map_cons, List.map_nil, List.cons.injEq, Prod.mk.injEq, true_and, and_true]
  exact List.filter_eq_self.2 fun x hx => by simp [hall x hx]

end LookupLemmas

/-- With unique event ids, the first query of register has one row for a
published event of the college, carrying its number of active registrations,
and no row otherwise. -/
theorem registerLookup_eq {db : Db} {ev : Event} (college_id : Nat)
    (hids : (db.events.map (·.id)).Nodup) (hev : ev ∈ db.events) :
    registerLookup db college_id ev.id =
      if ev.college_id = college_id ∧ ev.status = "published" then
        [(ev, activeRegistrations db ev.id)]
      else [] := by
  unfold registerLookup
  rw [leftJoin_filter_fst db.events db.registrations _
    (fun e => decide (e.id = ev.id) && decide (e.college_id = college_id)
      && decide (e.status = "published"))]
  have hfilter : db.events.filter (fun e => decide (e.id = ev.id)
      && decide (e.college_id = college_id) && decide (e.status = "published")) =
      if ev.college_id = college_id ∧ ev.status = "published" then [ev] else [] := by
    have h1 : db.events.filter (fun e => decide (e.id = ev.id)
        && decide (e.college_id = college_id) && decide (e.status = "published")) =
        (db.events.filter (fun e => decide (e.id = ev.id))).filter
          (fun e => decide (e.college_id = college_id) && decide (e.status = "published")) := by
      rw [List.filter_filter]
      congr 1
      funext e
      simp only [Bool.and_assoc, Bool.and_comm]
    rw [h1, filter_key_eq_singleton (fun e : Event => e.id) hids hev]
    by_cases hc : ev.college_id = college_id ∧ ev.status = "published"
    · simp [hc.1, hc.2]
    · rw [if_neg hc]
      apply List.filter_eq_nil_iff.2
      intro e he
      rw [List.mem_singleton.1 he]
      simpa using hc
  rw [hfilter]
  by_cases hc : ev.college_id = college_id ∧ ev.status = "published"
  · rw [if_pos hc, if_pos hc]
    have hact : activeRegistrations db ev.id =
        (db.registrations.filter fun r =>
          decide (ev.id = r.event_id) && decide (r.status = "registered")).length := by
      unfold activeRegistrations
      congr 2
      funext r
      simp only [eq_comm]
    rw [hact]
    cases hm : db.registrations.filter
        (fun r => decide (ev.id = r.event_id) && decide (r.status = "registered")) with
    | nil =>
      have hrows : leftJoin [ev] db.registrations
          (fun e r => decide (e.id = r.event_id) && decide (r.status = "registered")) =
          [(ev, none)] := by
        simp [leftJoin, hm]
      rw [hrows, groupBy_const (k := ev.id) (by simp) (by simp)]
      simp [countNonNull]
    | cons b bs =>
      have hrows : leftJoin [ev] db.registrations
          (fun e r => decide (e.id = r.event_id) && decide (r.status = "registered")) =
          (ev, some b) :: bs.map fun r => (ev, some r) := by
        simp [leftJoin, hm]
      rw [hrows, groupBy_const (k := ev.id) (by simp) (by
        intro x hx
        rcases List.mem_cons.1 hx with rfl | hx
        · rfl
        · obtain ⟨r, -, rfl⟩ := List.mem_map.1 hx
          rfl)]
      simp [countNonNull, List.filter_map, Function.comp_def]
  · rw [if_neg hc, if_neg hc]
    rfl

/-- The answer of requireRole to an authenticated request, by membership of
the stored role in the list. -/
theorem requireRole_some (roles : List String) (u : AuthUser) :
    requireRole roles (some u) =
      if u.user.role ∈ roles then .next u
      else .reject 403 "Access denied" "Insufficient permissions" := by
  by_cases h : u.user.role ∈ roles <;> simp [requireRole, h]

/-! ## Lemmas on runs of requests -/

/-- A list with pairwise distinct keys has at most one row of a given key. -/
theorem length_filter_key_le_one {α κ : Type} [DecidableEq κ] (key : α → κ) (k : κ) :
    ∀ l : List α, (l.map key).Nodup → (l.filter fun x => decide (key x = k)).length ≤ 1
  | [], _ => by simp
  | x :: xs, h => by
    rw [List.map_cons, List.nodup_cons] at h
    by_cases hx : key x = k
    · have hnil : xs.filter (fun y => decide (key y = k)) = [] := by
        apply List.filter_eq_nil_iff.2
        intro y hy hk
        exact h.1 (List.mem_map.2 ⟨y, hy, by rw [hx]; simpa using hk⟩)
      simp [List.filter_cons, hx, hnil]
    · simpa [List.filter_cons, hx] using length_filter_key_le_one key k xs h.2

/-- Register leaves the registrations as they are, or appends one row for a
pair that had none. -/
theorem registerForEvent_registrations (db : Db) (now : Nat) (user : User) (id : Nat) :
    (registerForEvent db now user id).1.attendance = db.attendance ∧
    ((registerForEvent db now user id).1.registrations = db.registrations ∨
      ((∀ r ∈ db.registrations, r.pair ≠ (id, user.id)) ∧
        ∃ row : Registration, row.pair = (id, user.id) ∧
          (registerForEvent db now user id).1.registrations = db.registrations ++ [row])) := by
  unfold registerForEvent
  split
  · exact ⟨rfl, Or.inl rfl⟩
  · split
    · exact ⟨rfl, Or.inl rfl⟩
    · split
      · exact ⟨rfl, Or.inl rfl⟩
      · split
        · exact ⟨rfl, Or.inl rfl⟩
        · rename_i hdup
          refine ⟨rfl, Or.inr ⟨?_, _, ?_, rfl⟩⟩
          on_goal 2 => rfl
          intro r hr hpair
          apply hdup
          apply List.length_pos.2
          intro hnil
          have := List.filter_eq_nil_iff.1 hnil r hr
          simp only [Registration.pair, Prod.mk.injEq] at hpair
          simp [hpair.1, hpair.2] at this

/-- Cancel keeps the pair of every registration row and the attendance table. -/
theorem cancelRegistration_pairs (db : Db) (user : User) (id : Nat) :
    (cancelRegistration db user id).1.attendance = db.attendance ∧
    (cancelRegistration db user id).1.registrations.map Registration.pair =
      db.registrations.map Registration.pair := by
  unfold cancelRegistration
  split
  · exact ⟨rfl, rfl⟩
  · refine ⟨rfl, ?_⟩
    simp only [List.map_map]
    apply List.map_congr_left
    intro r _
    simp only [Function.comp_apply]
    split <;> rfl

/-- Check-in leaves the database as it is: it answers before the date test or
is stopped by it. -/
theorem checkIn_fst (db : Db) (now : Nat) (user : User) (id : Nat) :
    (checkIn db now user id).1 = db := by
  unfold checkIn columnIsoDate
  split
  · rfl
  · split <;> rfl

/-- Check-out keeps the pair of every attendance row and the registrations. -/
theorem checkOut_pairs (db : Db) (now : Nat) (user : User) (id : Nat) :
    (checkOut db now user id).1.registrations = db.registrations ∧
    (checkOut db now user id).1.attendance.map Attendance.pair =
      db.attendance.map Attendance.pair := by
  unfold checkOut
  split
  · exact ⟨rfl, rfl⟩
  · refine ⟨rfl, ?_⟩
    simp only [List.map_map]
    apply List.map_congr_left
    intro a _
    simp only [Function.comp_apply]
    split <;> rfl

/-- Appending a row with a new key keeps the keys pairwise distinct. -/
theorem nodup_map_append_singleton {α κ : Type} (key : α → κ) (l : List α) (row : α)
    (h : (l.map key).Nodup) (hnew : ∀ x ∈ l, key x ≠ key row) :
    ((l ++ [row]).map key).Nodup := by
  rw [List.map_append, List.map_singleton]
  apply List.Nodup.append h (List.nodup_singleton _)
  intro k hk hk'
  obtain ⟨x, hx, rfl⟩ := List.mem_map.1 hk
  exact hnew x hx (List.mem_singleton.1 hk')

/-- Serving one request keeps the pairs of both tables pairwise distinct. -/
theorem serve_pairs_nodup (db : Db) (req : Request)
    (h : (db.registrations.map Registration.pair).Nodup ∧
      (db.attendance.map Attendance.pair).Nodup) :
    ((req.serve db).registrations.map Registration.pair).Nodup ∧
      ((req.serve db).attendance.map Attendance.pair).Nodup := by
  cases req with
  | register now user id =>
    obtain ⟨ha, hr⟩ := registerForEvent_registrations db now user id
    simp only [Request.serve]
    rw [ha]
    refine ⟨?_, h.2⟩
    rcases hr with hr | ⟨hnew, row, hrow, hr⟩
    · rw [hr]
      exact h.1
    · rw [hr]
      exact nodup_map_append_singleton _ _ _ h.1 (fun x hx => by rw [hrow]; exact hnew x hx)
  | cancel user id =>
    obtain ⟨ha, hr⟩ := cancelRegistration_pairs db user id
    simp only [Request.serve]
    rw [ha, hr]
    exact h
  | checkIn now user id =>
    simp only [Request.serve]
    rw [checkIn_fst]
    exact h
  | checkOut now user id =>
    obtain ⟨hr, ha⟩ := checkOut_pairs db now user id
    simp only [Request.serve]
    rw [hr, ha]
    exact h

/-- A run of requests keeps the pairs of both tables pairwise distinct. -/
theorem runRequests_pairs_nodup (reqs : List Request) :
    ∀ db : Db, ((db.registrations.map Registration.pair).Nodup ∧
        (db.attendance.map Attendance.pair).Nodup) →
      ((runRequests db reqs).registrations.map Registration.pair).Nodup ∧
        ((runRequests db reqs).attendance.map Attendance.pair).Nodup := by
  induction reqs with
  | nil => exact fun _ h => h
  | cons req rest ih =>
    intro db h
    exact ih (req.serve db) (serve_pairs_nodup db req h)

/-- Serving one request keeps the pairs of the attendance rows. -/
theorem serve_attendance_pairs (db : Db) (req : Request) :
    (req.serve db).attendance.map Attendance.pair = db.attendance.map Attendance.pair := by
  cases req with
  | register now user id =>
    simp only [Request.serve]
    rw [(registerForEvent_registrations db now user id).1]
  | cancel user id =>
    simp only [Request.serve]
    rw [(cancelRegistration_pairs db user id).1]
  | checkIn now user id =>
    simp only [Request.serve]
    rw [checkIn_fst]
  | checkOut now user id =>
    simp only [Request.serve]
    exact (checkOut_pairs db now user id).2

/-- A run of requests keeps the pairs of the attendance rows. -/
theorem runRequests_attendance_pairs (reqs : List Request) :
    ∀ db : Db, (runRequests db reqs).attendance.map Attendance.pair =
      db.attendance.map Attendance.pair := by
  induction reqs with
  | nil => exact fun _ => rfl
  | cons req rest ih =>
    intro db
    exact (ih (req.serve db)).trans (serve_attendance_pairs db req)

/-- A matched row of a left join pairs a left row with a right row of the table
that passes the join condition. -/
theorem mem_leftJoin_snd {α β : Type} {l : List α} {r : List β} {cond : α → β → Bool}
    {a : α} {b : β} (h : (a, some b) ∈ leftJoin l r cond) : b ∈ r ∧ cond a b = true := by
  unfold leftJoin at h
  obtain ⟨a', _, hx⟩ := List.mem_flatMap.1 h
  split at hx
  · simp at hx
  · obtain ⟨b', hb', hb⟩ := List.mem_map.1 hx
    simp only [Prod.mk.injEq, Option.some.injEq] at hb
    obtain ⟨rfl, rfl⟩ := hb
    exact List.mem_filter.1 hb'

/-- Submit either leaves the database as it is, or passes every test and
appends one feedback row. -/
theorem submitFeedback_cases (db : Db) (now : Nat) (user : User) (id : Nat)
    (body : FeedbackPayload) :
    ((submitFeedback db now user id body).1 = db ∧
      ∀ b, (submitFeedback db now user id body).2 ≠ .json 201 b) ∨
    (∃ v ev att rest, feedbackSchemaValidate body = .ok v ∧
      feedbackLookup db user id = (ev, att) :: rest ∧ truthyId (att.map (·.id)) = true ∧
      (db.feedback.filter fun f =>
        decide (f.event_id = id) && decide (f.user_id = user.id)) = [] ∧
      submitFeedback db now user id body =
        ({ db with feedback := db.feedback ++ [feedbackRow db now user id v]
                   lastID := nextId (db.feedback.map (·.id)) },
         .json 201 { message := "Feedback submitted successfully"
                     id := nextId (db.feedback.map (·.id)) })) := by
  unfold submitFeedback
  cases hv : feedbackSchemaValidate body with
  | error key => exact Or.inl ⟨rfl, fun b h => by simp at h⟩
  | ok v =>
    cases hl : feedbackLookup db user id with
    | nil => exact Or.inl ⟨rfl, fun b h => by simp at h⟩
    | cons x rest =>
      obtain ⟨ev, att⟩ := x
      by_cases ht : truthyId (att.map (·.id)) = true
      · by_cases hf : (db.feedback.filter fun f =>
            decide (f.event_id = id) && decide (f.user_id = user.id)).length > 0
        · refine Or.inl ⟨by simp [ht, hf], fun b h => ?_⟩
          simp [ht, hf] at h
        · refine Or.inr ⟨v, ev, att, rest, rfl, rfl, ht, ?_, ?_⟩
          · simpa using hf
          · simp only [ht, hf]
            rfl
      · refine Or.inl ⟨by simp [ht], fun b h => ?_⟩
        simp [ht] at h

/-- A validated feedback body carries an integer rating between 1 and 5. -/
theorem feedbackSchemaValidate_ok {body : FeedbackPayload} {v : FeedbackValue}
    (h : feedbackSchemaValidate body = .ok v) :
    body.rating = some v.rating ∧ v.comment = body.comment ∧
      v.rating = (v.rating.num : ℚ) ∧ 1 ≤ v.rating.num ∧ v.rating.num ≤ 5 := by
  unfold feedbackSchemaValidate at h
  cases hr : body.rating with
  | none => simp [hr] at h
  | some r =>
    simp only [hr] at h
    by_cases hok : (decide (r.den = 1) && decide (1 ≤ r) && decide (r ≤ 5)) = true
    · by_cases hc : optStringOk 500 body.comment = true
      · simp only [hok, hc, Bool.not_true, Bool.false_eq_true, if_false,
          Except.ok.injEq] at h
        subst h
        simp only [Bool.and_eq_true, decide_eq_true_eq] at hok
        obtain ⟨⟨hden, h1⟩, h5⟩ := hok
        have hcast : r = (r.num : ℚ) := (Rat.den_eq_one_iff r).1 hden |>.symm
        refine ⟨rfl, rfl, hcast, ?_, ?_⟩
        · have : ((1 : ℤ) : ℚ) ≤ (r.num : ℚ) := by rw [← hcast]; simpa using h1
          exact_mod_cast this
        · have : (r.num : ℚ) ≤ ((5 : ℤ) : ℚ) := by rw [← hcast]; simpa using h5
          exact_mod_cast this
      · simp [hok, hc] at h
    · simp [hok] at h

/-- Every row of an inner join pairs a left row of the table with a right row. -/
theorem mem_innerJoin {α β : Type} {l : List α} {r : List β} {cond : α → β → Bool}
    {x : α × β} (h : x ∈ innerJoin l r cond) : x.1 ∈ l ∧ x.2 ∈ r ∧ cond x.1 x.2 = true := by
  unfold innerJoin at h
  obtain ⟨a, ha, hx⟩ := List.mem_flatMap.1 h
  obtain ⟨b, hb, rfl⟩ := List.mem_map.1 hx
  exact ⟨ha, (List.mem_filter.1 hb).1, (List.mem_filter.1 hb).2⟩

/-- The id given to a new row is larger than every id of the table. -/
theorem lt_nextId {ids : List Nat} {x : Nat} (h : x ∈ ids) : x < nextId ids := by
  unfold nextId
  induction ids with
  | nil => simp at h
  | cons y ys ih =>
    simp only [List.foldr_cons]
    rcases List.mem_cons.1 h with rfl | hmem
    · omega
    · have := ih hmem
      omega

/-- A body the event schema accepts carries every required key, and the value
repeats the body. -/
theorem eventSchemaValidate_ok {now : Nat} {b : EventPayload} {v : EventValue}
    (h : eventSchemaValidate now b = .ok v) :
    b.title = some v.title ∧ v.description = b.description ∧ b.eventDate = some v.eventDate ∧
      b.startTime = some v.startTime ∧ b.endTime = some v.endTime ∧ v.location = b.location ∧
      v.capacity = b.capacity ∧ v.registrationDeadline = b.registrationDeadline ∧
      b.categoryId = some v.categoryId ∧ 0 < v.categoryId ∧
      (∀ c, b.capacity = some c → 1 ≤ c) := by
  unfold eventSchemaValidate at h
  cases ht : b.title with
  | none => simp [ht] at h
  | some title =>
    cases hd : b.eventDate with
    | none =>
      simp only [ht, hd] at h
      split at h <;> try simp at h
      split at h <;> simp at h
    | some eventDate =>
      cases hs : b.startTime with
      | none =>
        simp only [ht, hd, hs] at h
        repeat' split at h
        all_goals simp at h
      | some startTime =>
        cases he : b.endTime with
        | none =>
          simp only [ht, hd, hs, he] at h
          repeat' split at h
          all_goals simp at h
        | some endTime =>
          cases hc : b.categoryId with
          | none =>
            simp only [ht, hd, hs, he, hc] at h
            repeat' split at h
            all_goals simp at h
          | some categoryId =>
            simp only [ht, hd, hs, he, hc] at h
            repeat' split at h
            all_goals first
              | (simp at h; done)
              | skip
            all_goals
              simp only [Except.ok.injEq] at h
              subst h
              rename_i hcap _ hcat
              have hcat' : 0 < categoryId ∧ categoryId ≤ maxSafeInteger := by simpa using hcat
              refine ⟨rfl, rfl, rfl, rfl, rfl, rfl, rfl, rfl, rfl, hcat'.1, ?_⟩
              intro c hcv
              rw [hcv] at hcap
              have hcap' : 1 ≤ c ∧ c ≤ maxSafeInteger := by simpa using hcap
              exact hcap'.1

/-- Every row of the user query of login is an active user of the table with
the requested email. -/
theorem mem_loginRows {db : Db} {email : String} {row : AuthUser}
    (h : row ∈ loginRows db email) :
    row.user ∈ db.users ∧ row.user.email = email ∧ row.user.is_active = true := by
  unfold loginRows innerJoin at h
  obtain ⟨x, hx, hrow⟩ := List.mem_map.1 h
  subst hrow
  obtain ⟨hx1, hx2⟩ := List.mem_filter.1 hx
  obtain ⟨u, hu, hxu⟩ := List.mem_flatMap.1 hx1
  obtain ⟨c, -, hxc⟩ := List.mem_map.1 hxu
  subst hxc
  simp only [Bool.and_eq_true, decide_eq_true_eq] at hx2
  exact ⟨hu, hx2.1, hx2.2⟩

/-! ## Lemmas on pagination -/

/-- When at most one right row matches, the right side of a left-join row is the
first match, or NULL. -/
theorem leftJoin_snd_eq_head? {α β : Type} {l : List α} {r : List β} {cond : α → β → Bool}
    {x : α × Option β} (h : x ∈ leftJoin l r cond)
    (hone : (r.filter (cond x.1)).length ≤ 1) : x.2 = (r.filter (cond x.1)).head? := by
  unfold leftJoin at h
  obtain ⟨a, _, hx⟩ := List.mem_flatMap.1 h
  cases hm : r.filter (cond a) with
  | nil =>
    rw [hm] at hx
    simp only [List.mem_singleton] at hx
    subst hx
    simp [hm]
  | cons b bs =>
    rw [hm] at hx
    obtain ⟨b', hb', hb⟩ := List.mem_map.1 hx
    subst hb
    simp only at hone ⊢
    rw [hm] at hone ⊢
    cases bs with
    | nil =>
      simp only [List.mem_singleton] at hb'
      subst hb'
      rfl
    | cons c cs => simp at hone

/-- With unique category and user ids, the group key of a joined row is a
function of its event. -/
theorem eventJoin_key {db : Db} {x : EventJoinRow}
    (hcats : (db.event_categories.map (·.id)).Nodup) (husers : (db.users.map (·.id)).Nodup)
    (h : x ∈ eventJoin db) : (x.e.id, x.ecName, x.uFirstName) = eventKey db x.e := by
  have h3 := mem_leftJoin_fst h
  have h2 := mem_leftJoin_fst h3
  have h1 := mem_leftJoin_fst h2
  have hc : x.1.1.1.2 =
      (db.event_categories.filter fun ec => decide (x.1.1.1.1.category_id = ec.id)).head? := by
    apply leftJoin_snd_eq_head? h1
    have := length_filter_key_le_one (fun ec : EventCategory => ec.id) x.1.1.1.1.category_id
      db.event_categories hcats
    have hf : (fun ec : EventCategory => decide (x.1.1.1.1.category_id = ec.id)) =
        fun ec => decide (ec.id = x.1.1.1.1.category_id) := by
      funext ec
      simp only [eq_comm]
    rw [hf]
    exact this
  have hu : x.1.1.2 =
      (db.users.filter fun u => decide (x.1.1.1.1.created_by = u.id)).head? := by
    apply leftJoin_snd_eq_head? h2
    have := length_filter_key_le_one (fun u : User => u.id) x.1.1.1.1.created_by
      db.users husers
    have hf : (fun u : User => decide (x.1.1.1.1.created_by = u.id)) =
        fun u => decide (u.id = x.1.1.1.1.created_by) := by
      funext u
      simp only [eq_comm]
    rw [hf]
    exact this
  simp only [EventJoinRow.e, EventJoinRow.ecName, EventJoinRow.uFirstName, eventKey, hc, hu]

/-- With unique category and user ids, the event queries return at most one row
per event that passes `WHERE`. -/
theorem length_eventRows_le (db : Db) (wh : Event → Bool)
    (hcats : (db.event_categories.map (·.id)).Nodup) (husers : (db.users.map (·.id)).Nodup) :
    (eventRows db wh).length ≤ (db.events.filter wh).length := by
  unfold eventRows
  refine le_trans (List.length_filterMap_le _ _) ?_
  unfold groupBy
  rw [List.length_map]
  have hsub : ((List.map (fun x : EventJoinRow => (x.e.id, x.ecName, x.uFirstName))
      ((eventJoin db).filter fun x => wh x.e)).dedup) ⊆
      (db.events.filter wh).map (eventKey db) := by
    intro k hk
    obtain ⟨x, hx, rfl⟩ := List.mem_map.1 (List.mem_dedup.1 hk)
    obtain ⟨hx1, hx2⟩ := List.mem_filter.1 hx
    rw [eventJoin_key hcats husers hx1]
    exact List.mem_map.2 ⟨x.e, List.mem_filter.2 ⟨mem_eventJoin_e hx1, hx2⟩, rfl⟩
  have := ((List.nodup_dedup _).subperm hsub).length_le
  rwa [List.length_map] at this

/-- The number of pages is the least number of pages of `limit` rows that hold
`total` rows. -/
theorem pagesOf_ceil (total limit : Nat) (hlimit : 1 ≤ limit) :
    ∃ n, pagesOf total limit = some n ∧ total ≤ n * limit ∧
      ∀ m, total ≤ m * limit → n ≤ m := by
  refine ⟨(total + limit - 1) / limit, ?_, ?_, ?_⟩
  · unfold pagesOf
    rw [if_neg (by omega)]
  · have := @Nat.lt_div_mul_add (total + limit - 1) limit (by omega)
    omega
  · intro m hm
    have : (total + limit - 1) / limit < m + 1 := by
      rw [Nat.div_lt_iff_lt_mul (by omega), Nat.add_mul, Nat.one_mul]
      omega
    omega

/-- The answer of the event list to a request without search text. -/
theorem listEvents_searchless (ops : Ops) (db : Db) (user : User) (q : EventListQuery)
    (h : q.search = none ∨ q.search = some "") :
    listEvents ops db user q =
      .json 200
        { rows := limitOffset q.limit (((q.page : Int) - 1) * q.limit)
            (sortedEventRows ops db user q)
          pagination :=
            { page := q.page, limit := q.limit
              total := (db.events.filter (eventListWhere ops user.college_id q)).length
              pages := pagesOf
                (db.events.filter (eventListWhere ops user.college_id q)).length q.limit } } := by
  have hp : eventListPgOnly q = [] := by
    unfold eventListPgOnly
    rcases h with h | h
    · rw [h]
    · rw [h]
      rfl
  unfold listEvents poolQuery
  rw [hp]
  rfl

/-! ## Lemmas on the feedback aggregates -/

/-- When every rating is between 1 and 5, the five star counts add up to the
number of feedback rows of the group. -/
theorem starCount_sum (fs : List (Option Feedback))
    (h : ∀ f, some f ∈ fs → 1 ≤ f.rating ∧ f.rating ≤ 5) :
    starCount fs 5 + starCount fs 4 + starCount fs 3 + starCount fs 2 + starCount fs 1 =
      countNonNull fs (fun f => f.map (·.id)) := by
  induction fs with
  | nil => rfl
  | cons x xs ih =>
    have ih' := ih (fun f hf => h f (List.mem_cons_of_mem _ hf))
    unfold starCount countNonNull at ih' ⊢
    cases x with
    | none =>
      simp only [List.filter_cons, Option.map_none', Option.isSome_none, Bool.false_eq_true,
        if_false]
      exact ih'
    | some f =>
      obtain ⟨h1, h5⟩ := h f (List.mem_cons_self _ _)
      have hcases : f.rating = 1 ∨ f.rating = 2 ∨ f.rating = 3 ∨ f.rating = 4 ∨ f.rating = 5 := by
        omega
      rcases hcases with hr | hr | hr | hr | hr <;>
        (simp [List.filter_cons, hr] at ih' ⊢; omega)

/-- The star counts and the distribution of a summary over feedback rows with
ratings between 1 and 5. -/
theorem starSummary_spec (roundPercent : Nat → Nat → Nat) (round2 : ℚ → ℚ)
    (fs : List (Option Feedback))
    (h : ∀ f, some f ∈ fs → 1 ≤ f.rating ∧ f.rating ≤ 5) :
    (starSummary roundPercent round2 fs).five_star_count
        + (starSummary roundPercent round2 fs).four_star_count
        + (starSummary roundPercent round2 fs).three_star_count
        + (starSummary roundPercent round2 fs).two_star_count
        + (starSummary roundPercent round2 fs).one_star_count =
      (starSummary roundPercent round2 fs).total_feedback ∧
    ((starSummary roundPercent round2 fs).total_feedback > 0 →
      (starSummary roundPercent round2 fs).rating_distribution =
        { five_star := roundPercent (starSummary roundPercent round2 fs).five_star_count
            (starSummary roundPercent round2 fs).total_feedback
          four_star := roundPercent (starSummary roundPercent round2 fs).four_star_count
            (starSummary roundPercent round2 fs).total_feedback
          three_star := roundPercent (starSummary roundPercent round2 fs).three_star_count
            (starSummary roundPercent round2 fs).total_feedback
          two_star := roundPercent (starSummary roundPercent round2 fs).two_star_count
            (starSummary roundPercent round2 fs).total_feedback
          one_star := roundPercent (starSummary roundPercent round2 fs).one_star_count
            (starSummary roundPercent round2 fs).total_feedback }) ∧
    ((starSummary roundPercent round2 fs).total_feedback = 0 →
      (starSummary roundPercent round2 fs).rating_distribution =
        { five_star := 0, four_star := 0, three_star := 0, two_star := 0, one_star := 0 }) := by
  refine ⟨starCount_sum fs h, ?_, ?_⟩
  · intro hpos
    simp only [starSummary] at hpos ⊢
    simp only [distributionEntry, hpos, if_true]
  · intro hzero
    simp only [starSummary] at hzero ⊢
    simp only [distributionEntry, hzero, gt_iff_lt, lt_self_iff_false, if_false]


/-! ## Theorems -/

/-- C1 (the code departs from it): with 10 active registrations and 4 attendance
rows for an event of the admin's college, the admin is answered 500 "Failed to
fetch attendance summary": the statement of the summary has `::float`, which
sqlite3 refuses, so no count and no percentage is reported. -/
theorem attendanceSummary_ten_four :
    activeRegistrations tenFourDb 1 = 10 ∧ attendanceRows tenFourDb 1 = 4 ∧
    adminA.role = "admin" ∧ talk ∈ tenFourDb.events ∧ talk.college_id = adminA.college_id ∧
    attendanceSummary tenFourDb adminA 1 =
      .fail 500 "Internal Server Error" "Failed to fetch attendance summary" := by
  decide

/-- C2 (the code departs from it): with 2 active registrations and 3 attendance
rows, both the single-event get and the event list answer registration_count 6
and attendance_count 6. -/
theorem event_counts_two_three :
    activeRegistrations twoThreeDb 1 = 2 ∧ attendanceRows twoThreeDb 1 = 3 ∧
    getEvent twoThreeDb adminA 1 =
      .json 200 { event := talk, category_name := some "Workshop", created_by_name := some "Ada"
                  registration_count := 6, attendance_count := 6 } ∧
    listEvents asciiOps twoThreeDb adminA {} =
      .json 200 { rows := [{ event := talk, category_name := some "Workshop"
                             created_by_name := some "Ada"
                             registration_count := 6, attendance_count := 6 }]
                  pagination := { page := 1, limit := 10, total := 1, pages := some 1 } } := by
  decide

/-- C3 (the code departs from it): a student registers, cancels, and registers
again; the only row of the pair is then `cancelled`, no `registered` row exists,
and the second register is answered 409 "Already registered for this event". -/
theorem register_after_cancel_conflict :
    (registerForEvent baseDb 100 studentA 1).2.status = 201 ∧
    (cancelRegistration (registerForEvent baseDb 100 studentA 1).1 studentA 1).2.status = 200 ∧
    (cancelRegistration (registerForEvent baseDb 100 studentA 1).1 studentA 1).1.registrations =
      [{ id := 1, event_id := 1, user_id := 2, status := "cancelled", registration_date := 100 }] ∧
    registerForEvent
        (cancelRegistration (registerForEvent baseDb 100 studentA 1).1 studentA 1).1 200 studentA 1 =
      ((cancelRegistration (registerForEvent baseDb 100 studentA 1).1 studentA 1).1,
       .fail 409 "Conflict" "Already registered for this event") := by
  decide

/-- C4 as stated fails: the event `seminar` is published with capacity 1 and 1
active registration, yet a register call by a student of another college is
answered 404, and a call by a student of its college after the registration
deadline is answered 400; neither is the 409 of a full event. -/
theorem register_full_event_not_conflict :
    seminar.status = "published" ∧ seminar.capacity = some 1 ∧
    activeRegistrations rosterDb 2 = 1 ∧ activeRegistrations lateDb 2 = 1 ∧
    registerForEvent rosterDb 100 studentA 2 =
      (rosterDb, .fail 404 "Not Found" "Event not found or not available for registration") ∧
    registerForEvent lateDb 100 studentC 2 =
      (lateDb, .fail 400 "Bad Request" "Registration deadline has passed") := by
  decide

/-- C4, amended: for every published event (event ids being unique) with
capacity N >= 1 that has N or more active registrations, a register call by a
student of the event's college, made while the registration deadline, if any,
has not passed, is answered 409 "Event is at full capacity" and leaves the
database as it was; and when capacity is null or the event has fewer than N
active registrations, no register call is answered with that refusal. -/
theorem registerForEvent_capacity (db : Db) (now : Nat) (user : User) (ev : Event)
    (hids : (db.events.map (·.id)).Nodup) (hev : ev ∈ db.events)
    (hpub : ev.status = "published") :
    (∀ N, ev.capacity = some N → 1 ≤ N → N ≤ activeRegistrations db ev.id →
      ev.college_id = user.college_id →
      (∀ d, ev.registration_deadline = some d → now ≤ d) →
      registerForEvent db now user ev.id =
        (db, .fail 409 "Conflict" "Event is at full capacity")) ∧
    ((ev.capacity = none ∨ ∃ N, ev.capacity = some N ∧ activeRegistrations db ev.id < N) →
      (registerForEvent db now user ev.id).2 ≠
        .fail 409 "Conflict" "Event is at full capacity") := by
  have hlook := registerLookup_eq user.college_id hids hev
  constructor
  · intro N hcap hN hfull hcol hdl
    rw [if_pos ⟨hcol, hpub⟩] at hlook
    have hd : deadlinePassed now ev = false := by
      unfold deadlinePassed
      cases hdv : ev.registration_deadline with
      | none => rfl
      | some d =>
        have := hdl d hdv
        simp only [Bool.and_eq_false_imp, decide_eq_true_eq, decide_eq_false_iff_not, not_lt]
        exact fun _ => this
    have hc : capacityReached ev (activeRegistrations db ev.id) = true := by
      unfold capacityReached
      rw [hcap]
      simp only [Bool.and_eq_true, decide_eq_true_eq]
      exact ⟨by omega, hfull⟩
    simp [registerForEvent, hlook, hd, hc]
  · intro hroom
    by_cases hcol : ev.college_id = user.college_id
    · rw [if_pos ⟨hcol, hpub⟩] at hlook
      have hc : capacityReached ev (activeRegistrations db ev.id) = false := by
        unfold capacityReached
        rcases hroom with hnone | ⟨N, hcap, hlt⟩
        · rw [hnone]
        · rw [hcap]
          simp only [Bool.and_eq_false_imp, decide_eq_true_eq, decide_eq_false_iff_not, not_le]
          exact fun _ => hlt
      unfold registerForEvent
      rw [hlook]
      simp only [hc]
      by_cases hd : deadlinePassed now ev = true
      · simp [hd]
      · have hd' : deadlinePassed now ev = false := by simpa using hd
        simp only [hd']
        by_cases hdup : 0 < (db.registrations.filter fun r =>
            decide (r.event_id = ev.id) && decide (r.user_id = user.id)).length
        · simp [hdup]
        · simp [hdup]
    · rw [if_neg (fun h => hcol h.1)] at hlook
      simp [registerForEvent, hlook]

/-- C4, amended, at sample data: student C of college 2 asks for the one seat
of `seminar`, already taken, and is answered 409 with the database unchanged. -/
theorem registerForEvent_capacity_witness :
    registerForEvent rosterDb 100 studentC seminar.id =
      (rosterDb, .fail 409 "Conflict" "Event is at full capacity") :=
  (registerForEvent_capacity rosterDb 100 studentC seminar (by decide) (by decide)
    (by decide)).1 1 (by decide) (by decide) (by decide) (by decide)
    (fun d hd => by simp [seminar] at hd)

/-- C5 (the code departs from it): the handler compares the two strings as
strings. From 9:00 to 10:00, both accepted by the pattern and in chronological
order, creation is answered 400 "Start time must be before end time"; from
10:00 to 9:30, not in chronological order, the event is created. -/
theorem createEvent_compares_strings :
    timePattern "9:00" = true ∧ timePattern "10:00" = true ∧ timePattern "9:30" = true ∧
    minutesOfDay "9:00" = some 540 ∧ minutesOfDay "10:00" = some 600 ∧
    minutesOfDay "9:30" = some 570 ∧
    createEvent baseDb 100 adminA morningBody =
      (baseDb, .fail 400 "Bad Request" "Start time must be before end time") ∧
    (createEvent baseDb 100 adminA backwardBody).2 =
      .json 201 { message := "Event created successfully", id := 2 } ∧
    ((createEvent baseDb 100 adminA backwardBody).1.events.map
        fun e => (e.id, e.start_time, e.end_time, e.status)) =
      [(1, "10:00", "12:00", "published"), (2, "10:00", "9:30", "draft")] := by
  decide

/-- C6 (the code departs from it): a body from 12:00 to 10:00 is refused by
create with 400 "Start time must be before end time", and the same body sent to
update for a published event of the admin's college is answered 200 and written
to the row. -/
theorem updateEvent_skips_time_check :
    createEvent baseDb 100 adminA noonBody =
      (baseDb, .fail 400 "Bad Request" "Start time must be before end time") ∧
    (updateEvent baseDb 100 adminA 1 noonBody).2 =
      .json 200 { message := "Event updated successfully", id := 0 } ∧
    ((updateEvent baseDb 100 adminA 1 noonBody).1.events.map
        fun e => (e.id, e.college_id, e.title, e.start_time, e.end_time, e.status)) =
      [(1, 1, "Test API Event", "12:00", "10:00", "published")] := by
  decide

/-- C7 (the code departs from it): an admin of college 1 asks for the rosters of
event 2, which belongs to college 2; both listings answer 200 with the row of
the college-2 student. -/
theorem rosters_cross_college :
    adminA.college_id = 1 ∧ seminar.college_id = 2 ∧ seminar ∈ rosterDb.events ∧
    listRegistrations rosterDb 2 {} =
      .json 200 { rows := [{ registration := { id := 1, event_id := 2, user_id := 3
                                               status := "registered", registration_date := 10 }
                             first_name := "Bo", last_name := "Other"
                             email := "student1@state.edu", student_id := some "B001" }]
                  pagination := { page := 1, limit := 20, total := 1, pages := some 1 } } ∧
    listAttendance rosterDb adminA 2 1 20 =
      .json 200 { rows := [{ attendance := { id := 1, event_id := 2, user_id := 3
                                             check_in_time := 20, check_out_time := none
                                             status := "present" }
                             first_name := "Bo", last_name := "Other"
                             email := "student1@state.edu", student_id := some "B001" }]
                  pagination := { page := 1, limit := 20, total := 1, pages := some 1 } } := by
  decide

/-- C8 (the code departs from it): an admin of college 1 deletes event 2 of
college 2, which has a registration row; the registration count is read before
any college test and the answer is 400 "Cannot delete event with existing
registrations", not 404. The event stays in place. -/
theorem deleteEvent_other_college_with_registration :
    adminA.college_id = 1 ∧ seminar.college_id = 2 ∧ seminar ∈ rosterDb.events ∧
    deleteEvent rosterDb adminA 2 =
      (rosterDb, .fail 400 "Bad Request" "Cannot delete event with existing registrations") := by
  decide

/-- C9: the single-event get answers 404 exactly when the events table has no
row with the requested id and the caller's college_id, so an event that does
not exist or belongs to another college yields 404; and whenever it answers
with an event, the status is 200 and the event is a row of the table with the
requested id and the caller's college_id. -/
theorem getEvent_college_scoped (db : Db) (user : User) (id : Nat) :
    (getEvent db user id = .fail 404 "Not Found" "Event not found" ↔
      ∀ e ∈ db.events, e.id = id → e.college_id ≠ user.college_id) ∧
    (∀ status row, getEvent db user id = .json status row →
      status = 200 ∧ row.event ∈ db.events ∧ row.event.id = id ∧
        row.event.college_id = user.college_id) := by
  unfold getEvent
  cases hrows : eventRows db
      (fun e => decide (e.id = id) && decide (e.college_id = user.college_id)) with
  | nil =>
    have := eventRows_eq_nil.1 hrows
    refine ⟨⟨fun _ e he hid hcol => ?_, fun _ => rfl⟩, fun status row h => ?_⟩
    · have := this e he
      simp [hid, hcol] at this
    · simp at h
  | cons row rest =>
    have hmem : row ∈ eventRows db
        (fun e => decide (e.id = id) && decide (e.college_id = user.college_id)) := by
      rw [hrows]
      exact List.mem_cons_self _ _
    obtain ⟨h1, h2⟩ := mem_eventRows hmem
    simp only [Bool.and_eq_true, decide_eq_true_eq] at h2
    refine ⟨⟨fun h => by simp at h, fun h => absurd h2.2 (h _ h1 h2.1)⟩, fun status row' h => ?_⟩
    simp only [Response.json.injEq] at h
    obtain ⟨hs, hr⟩ := h
    subst hs hr
    exact ⟨rfl, h1, h2.1, h2.2⟩

/-- C9, at sample data: the admin of college 1 gets event 1, a row of the table
of college 1. -/
theorem getEvent_college_scoped_witness :
    talk ∈ baseDb.events ∧ talk.id = 1 ∧ talk.college_id = adminA.college_id :=
  ((getEvent_college_scoped baseDb adminA 1).2 200
    { event := talk, category_name := some "Workshop", created_by_name := some "Ada"
      registration_count := 0, attendance_count := 0 } (by decide)).2

/-- C10 as stated fails: a header that carries a token which `jwt.verify`
refuses as malformed, an invalid token, is answered 403 "Invalid token", not 401. -/
theorem authenticateToken_invalid_token_403 :
    extractToken (some "Bearer abc") = some "abc" ∧
    authenticateToken (some "Bearer abc") (fun _ => .thrown "JsonWebTokenError") baseDb =
      .reject 403 "Access denied" "Invalid token" ∧
    ∀ error message,
      authenticateToken (some "Bearer abc") (fun _ => .thrown "JsonWebTokenError") baseDb ≠
        .reject 401 error message := by
  have h : authenticateToken (some "Bearer abc") (fun _ => .thrown "JsonWebTokenError") baseDb =
      .reject 403 "Access denied" "Invalid token" := by decide
  refine ⟨by decide, h, fun error message h401 => ?_⟩
  rw [h] at h401
  simp at h401

/-- C10, amended: authenticate answers 401 "No token provided" when no token
can be read from the header; with a token, it answers 401 "Token expired" when
verification throws `TokenExpiredError`, 403 "Invalid token" when verification
throws anything else (an invalid signature, a malformed token), 401 when no
active user row with a college exists for the token's userId, and otherwise it
passes on a live row of the users table, active and with that id. -/
theorem authenticateToken_outcomes (authHeader : Option String)
    (verify : String → VerifyOutcome) (db : Db) :
    ((extractToken authHeader = none ∨ extractToken authHeader = some "") →
      authenticateToken authHeader verify db =
        .reject 401 "Access denied" "No token provided") ∧
    (∀ token, extractToken authHeader = some token → token ≠ "" →
      (verify token = .thrown "TokenExpiredError" →
        authenticateToken authHeader verify db =
          .reject 401 "Access denied" "Token expired") ∧
      (∀ name, verify token = .thrown name → name ≠ "TokenExpiredError" →
        authenticateToken authHeader verify db =
          .reject 403 "Access denied" "Invalid token") ∧
      (∀ payload, verify token = .decoded payload →
        ((¬ ∃ u ∈ db.users, u.id = payload.userId ∧ u.is_active = true ∧
              ∃ c ∈ db.colleges, c.id = u.college_id) →
          authenticateToken authHeader verify db =
            .reject 401 "Access denied" "Invalid token or user not found") ∧
        ((∃ u ∈ db.users, u.id = payload.userId ∧ u.is_active = true ∧
              ∃ c ∈ db.colleges, c.id = u.college_id) →
          ∃ row, authenticateToken authHeader verify db = .next row ∧
            row.user ∈ db.users ∧ row.user.id = payload.userId ∧
            row.user.is_active = true))) := by
  refine ⟨?_, fun token htok hne => ⟨?_, ?_, fun payload hv => ⟨?_, ?_⟩⟩⟩
  · rintro (h | h) <;> simp [authenticateToken, h]
  · intro hv
    simp [authenticateToken, htok, hne, hv]
  · intro name hv hname
    simp [authenticateToken, htok, hne, hv, hname]
  · intro hno
    have := activeUserRows_eq_nil.2 hno
    simp [authenticateToken, htok, hne, hv, this]
  · intro hex
    cases hrows : activeUserRows db payload.userId with
    | nil => exact absurd hex (activeUserRows_eq_nil.1 hrows)
    | cons row rest =>
      have hmem : row ∈ activeUserRows db payload.userId := by
        rw [hrows]
        exact List.mem_cons_self _ _
      exact ⟨row, by simp [authenticateToken, htok, hne, hv, hrows], mem_activeUserRows hmem⟩

/-- C10, amended, at sample data: a token decoded to userId 2 passes on the
active row of user 2, whatever the other claims of the token say. -/
theorem authenticateToken_outcomes_witness :
    ∃ row, authenticateToken (some "Bearer abc")
        (fun _ => .decoded { userId := 2, email := "x@y", role := "admin", collegeId := 9 })
        baseDb = .next row ∧
      row.user ∈ baseDb.users ∧ row.user.id = 2 ∧ row.user.is_active = true :=
  (((authenticateToken_outcomes (some "Bearer abc")
      (fun _ => .decoded { userId := 2, email := "x@y", role := "admin", collegeId := 9 })
      baseDb).2 "abc" (by decide) (by decide)).2.2
    { userId := 2, email := "x@y", role := "admin", collegeId := 9 } rfl).2
    ⟨studentA, by decide, by decide, by decide, collegeA, by decide, by decide⟩

/-- C11: two tokens that `jwt.verify` accepts and that carry the same userId,
whatever their role, email and collegeId claims, get the same answer from
authenticate and from authenticate followed by requireRole; when the chain
calls the handler, the request user is a row of the live user query for that
userId, an active user of the table whose stored role is in the allowed list. -/
theorem authenticateThenRequire_live_state (roles : List String)
    (header1 header2 : Option String) (verify : String → VerifyOutcome) (db : Db)
    (token1 token2 : String) (claims1 claims2 : TokenPayload)
    (h1 : extractToken header1 = some token1) (hne1 : token1 ≠ "")
    (hv1 : verify token1 = .decoded claims1)
    (h2 : extractToken header2 = some token2) (hne2 : token2 ≠ "")
    (hv2 : verify token2 = .decoded claims2)
    (hid : claims1.userId = claims2.userId) :
    authenticateToken header1 verify db = authenticateToken header2 verify db ∧
    authenticateThenRequire roles header1 verify db =
      authenticateThenRequire roles header2 verify db ∧
    (∀ u, authenticateThenRequire roles header1 verify db = .next u →
      u ∈ activeUserRows db claims1.userId ∧ u.user ∈ db.users ∧
        u.user.id = claims1.userId ∧ u.user.is_active = true ∧ u.user.role ∈ roles) := by
  have hauth : ∀ (header : Option String) (token : String) (claims : TokenPayload),
      extractToken header = some token → token ≠ "" → verify token = .decoded claims →
      authenticateToken header verify db =
        match activeUserRows db claims.userId with
        | [] => .reject 401 "Access denied" "Invalid token or user not found"
        | row :: _ => .next row := by
    intro header token claims ht hne hv
    simp [authenticateToken, ht, hne, hv]
  have e1 := hauth header1 token1 claims1 h1 hne1 hv1
  have e2 := hauth header2 token2 claims2 h2 hne2 hv2
  rw [← hid] at e2
  refine ⟨e1.trans e2.symm, ?_, ?_⟩
  · unfold authenticateThenRequire
    rw [e1, e2]
  · intro u hu
    unfold authenticateThenRequire at hu
    rw [e1] at hu
    cases hrows : activeUserRows db claims1.userId with
    | nil =>
      rw [hrows] at hu
      simp at hu
    | cons row rest =>
      rw [hrows] at hu
      simp only [requireRole_some] at hu
      by_cases hrole : row.user.role ∈ roles
      · simp only [hrole, if_true, AuthOutcome.next.injEq] at hu
        subst hu
        have hmem : row ∈ activeUserRows db claims1.userId := by
          rw [hrows]
          exact List.mem_cons_self _ _
        obtain ⟨m1, m2, m3⟩ := mem_activeUserRows hmem
        exact ⟨List.mem_cons_self _ _, m1, m2, m3, hrole⟩
      · simp [hrole] at hu

/-- C11, at sample data: a token that claims the role admin and one that claims
the role student, both for user 2, are answered alike by the admin guard. -/
theorem authenticateThenRequire_live_state_witness :
    authenticateThenRequire ["admin"] (some "Bearer forged")
        (fun t => if t = "forged" then
            .decoded { userId := 2, email := "root@x", role := "admin", collegeId := 9 }
          else .decoded { userId := 2, email := "student1@techuniv.edu", role := "student"
                          collegeId := 1 }) baseDb =
      authenticateThenRequire ["admin"] (some "Bearer issued")
        (fun t => if t = "forged" then
            .decoded { userId := 2, email := "root@x", role := "admin", collegeId := 9 }
          else .decoded { userId := 2, email := "student1@techuniv.edu", role := "student"
                          collegeId := 1 }) baseDb :=
  (authenticateThenRequire_live_state ["admin"] (some "Bearer forged") (some "Bearer issued")
    (fun t => if t = "forged" then
        .decoded { userId := 2, email := "root@x", role := "admin", collegeId := 9 }
      else .decoded { userId := 2, email := "student1@techuniv.edu", role := "student"
                      collegeId := 1 }) baseDb "forged" "issued"
    { userId := 2, email := "root@x", role := "admin", collegeId := 9 }
    { userId := 2, email := "student1@techuniv.edu", role := "student", collegeId := 1 }
    (by decide) (by decide) (by decide) (by decide) (by decide) (by decide) rfl).2.1

/-- C12: requireRole answers 401 when the request has no user, 403 when the
user's role is not in the list, and calls the next handler, with that user,
exactly when the user is present and the role is in the list. Every route of
the reports router and every POST, PUT, PATCH and DELETE route of the events
router is declared with requireAdmin, and a request that authenticates as a
user whose stored role is student is answered 403 by the chain of such a route. -/
theorem requireRole_outcomes :
    (∀ roles, requireRole roles none = .reject 401 "Access denied" "Authentication required") ∧
    (∀ roles u, u.user.role ∉ roles →
      requireRole roles (some u) = .reject 403 "Access denied" "Insufficient permissions") ∧
    (∀ roles ctx u, requireRole roles ctx = .next u ↔ ctx = some u ∧ u.user.role ∈ roles) ∧
    (∀ r ∈ routeTable,
      (r.router = "reports" ∨
        (r.router = "events" ∧ r.method ∈ ["POST", "PUT", "PATCH", "DELETE"])) →
      r.authenticated = true ∧ r.guard = .requireAdmin ∧ r.guard.roles = some ["admin"]) ∧
    (∀ u, u.user.role = "student" →
      requireAdmin (some u) = .reject 403 "Access denied" "Insufficient permissions") ∧
    (∀ authHeader verify db u, authenticateToken authHeader verify db = .next u →
      u.user.role = "student" →
      authenticateThenRequire ["admin"] authHeader verify db =
        .reject 403 "Access denied" "Insufficient permissions") := by
  have h403 : ∀ (roles : List String) (u : AuthUser), u.user.role ∉ roles →
      requireRole roles (some u) = .reject 403 "Access denied" "Insufficient permissions" := by
    intro roles u hu
    rw [requireRole_some, if_neg hu]
  refine ⟨fun _ => rfl, h403, ?_, by decide, ?_, ?_⟩
  · intro roles ctx u
    cases ctx with
    | none => simp [requireRole]
    | some v =>
      rw [requireRole_some]
      by_cases hv : v.user.role ∈ roles
      · rw [if_pos hv]
        constructor
        · intro h
          simp only [AuthOutcome.next.injEq] at h
          subst h
          exact ⟨rfl, hv⟩
        · rintro ⟨h1, -⟩
          simp only [Option.some.injEq] at h1
          rw [h1]
      · rw [if_neg hv]
        constructor
        · intro h
          simp at h
        · rintro ⟨h1, h2⟩
          simp only [Option.some.injEq] at h1
          subst h1
          exact absurd h2 hv
  · intro u hu
    exact h403 ["admin"] u (by simp [hu])
  · intro authHeader verify db u hauth hu
    unfold authenticateThenRequire
    rw [hauth]
    exact h403 ["admin"] u (by simp [hu])

/-- C12, at sample data: student A, authenticated, is answered 403 by the chain
of an admin route. -/
theorem requireRole_outcomes_witness :
    authenticateThenRequire ["admin"] (some "Bearer abc")
        (fun _ => .decoded { userId := 2, email := "", role := "student", collegeId := 1 })
        baseDb =
      .reject 403 "Access denied" "Insufficient permissions" :=
  requireRole_outcomes.2.2.2.2.2 (some "Bearer abc")
    (fun _ => .decoded { userId := 2, email := "", role := "student", collegeId := 1 })
    baseDb { user := studentA, college_name := "Tech University" } (by decide) (by decide)

/-- C13 (the code departs from it): `GET /api/student/attendance` puts its two
query parameters into the ORDER BY line as received, for every value; with
sortBy `id` and sortOrder `DESC; DROP TABLE attendance` the line of the query
text is `ORDER BY a.id DESC; DROP TABLE attendance`. -/
theorem studentAttendance_sort_raw :
    (∀ sortBy sortOrder, studentAttendanceSort sortBy sortOrder = (sortBy, sortOrder)) ∧
    studentAttendanceOrderBy "id" "DESC; DROP TABLE attendance" =
      "ORDER BY a.id DESC; DROP TABLE attendance" ∧
    (eventsSort asciiOps "id" "DESC; DROP TABLE attendance" = ("event_date", "ASC")) := by
  refine ⟨fun _ _ => rfl, by decide, by decide⟩

/-- C16: starting from a store without registration and attendance rows, after any sequence of
register and cancel requests (and of check-in and check-out requests) served one
after the other, every pair (event_id, user_id) has at most one registration
row with status `registered`. -/
theorem active_registration_at_most_one (db : Db) (hreg : db.registrations = [])
    (hatt : db.attendance = []) (reqs : List Request)
    (event_id user_id : Nat) :
    activeOfPair (runRequests db reqs) event_id user_id ≤ 1 := by
  have h := (runRequests_pairs_nodup reqs db
    ⟨by rw [hreg]; exact List.nodup_nil, by rw [hatt]; exact List.nodup_nil⟩).1
  have hle := length_filter_key_le_one Registration.pair (event_id, user_id) _ h
  have hfun : (fun r : Registration => decide (r.event_id = event_id)
        && decide (r.user_id = user_id) && decide (r.status = "registered")) =
      fun r => decide (r.status = "registered") && decide (r.pair = (event_id, user_id)) := by
    funext r
    simp [Registration.pair, Bool.and_comm]
  unfold activeOfPair
  rw [hfun, ← List.filter_filter]
  exact le_trans (List.length_filter_le _ _) hle

/-- C16, at sample data: student A registers twice for `talk` and holds one
active registration row; after a cancel and one more register, never more than
one. -/
theorem active_registration_at_most_one_witness :
    activeOfPair
        (runRequests baseDb
          [.register 100 studentA 1, .register 150 studentA 1]) 1 2 = 1 ∧
      activeOfPair
        (runRequests baseDb
          [.register 100 studentA 1, .register 150 studentA 1, .cancel studentA 1,
           .register 300 studentA 1]) 1 2 ≤ 1 :=
  ⟨by decide, active_registration_at_most_one baseDb rfl rfl _ 1 2⟩

/-- C17: feedback submit changes the feedback table only when the rating is an
integer between 1 and 5, the event is a completed event of the student's
college, and the student has an attendance row for it; and when a submit is
answered 201, a second submit by the same student for the same event, served
next, leaves the database as it is, whatever its body, and is answered 409
"Feedback already submitted for this event" when its body passes the schema. -/
theorem submitFeedback_guarded_once (db : Db) (now : Nat) (user : User) (id : Nat)
    (body : FeedbackPayload) :
    ((submitFeedback db now user id body).1.feedback ≠ db.feedback →
      (∃ n : ℤ, body.rating = some (n : ℚ) ∧ 1 ≤ n ∧ n ≤ 5) ∧
      (∃ ev ∈ db.events, ev.id = id ∧ ev.status = "completed" ∧
        ev.college_id = user.college_id) ∧
      (∃ a ∈ db.attendance, a.event_id = id ∧ a.user_id = user.id)) ∧
    (∀ b, (submitFeedback db now user id body).2 = .json 201 b →
      ∀ (now' : Nat) (body' : FeedbackPayload),
        (submitFeedback (submitFeedback db now user id body).1 now' user id body').1 =
          (submitFeedback db now user id body).1 ∧
        ((∃ v, feedbackSchemaValidate body' = .ok v) →
          (submitFeedback (submitFeedback db now user id body).1 now' user id body').2 =
            .fail 409 "Conflict" "Feedback already submitted for this event")) := by
  rcases submitFeedback_cases db now user id body with ⟨hsame, hno⟩ | ⟨v, ev, att, rest, hv, hl, ht, hf, hE⟩
  · refine ⟨fun h => absurd (by rw [hsame]) h, fun b hb => absurd hb (hno b)⟩
  · constructor
    · intro _
      obtain ⟨hr, -, hcast, h1, h5⟩ := feedbackSchemaValidate_ok hv
      have hmem : (ev, att) ∈ feedbackLookup db user id := by
        rw [hl]
        exact List.mem_cons_self _ _
      unfold feedbackLookup at hmem
      obtain ⟨hj, hw⟩ := List.mem_filter.1 hmem
      simp only [Bool.and_eq_true, decide_eq_true_eq] at hw
      refine ⟨⟨v.rating.num, by rw [hr, ← hcast], h1, h5⟩,
        ⟨ev, mem_leftJoin_fst hj, hw.1.1, hw.2, hw.1.2⟩, ?_⟩
      cases att with
      | none => simp [truthyId] at ht
      | some a =>
        obtain ⟨ha, hc⟩ := mem_leftJoin_snd hj
        simp only [Bool.and_eq_true, decide_eq_true_eq] at hc
        exact ⟨a, ha, by rw [← hc.1, hw.1.1], hc.2⟩
    · intro b _ now' body'
      rw [hE]
      have hl' : feedbackLookup
          { db with feedback := db.feedback ++ [feedbackRow db now user id v]
                    lastID := nextId (db.feedback.map (·.id)) } user id =
          (ev, att) :: rest := by
        rw [← hl]
        rfl
      have hdup : ((db.feedback ++ [feedbackRow db now user id v]).filter fun f =>
          decide (f.event_id = id) && decide (f.user_id = user.id)).length > 0 := by
        apply List.length_pos.2
        intro hnil
        have := List.filter_eq_nil_iff.1 hnil (feedbackRow db now user id v) (by simp)
        simp [feedbackRow] at this
      constructor
      · unfold submitFeedback
        cases feedbackSchemaValidate body' with
        | error key => rfl
        | ok v' =>
          simp only [hl', ht, hdup]
          rfl
      · rintro ⟨v', hv'⟩
        unfold submitFeedback
        simp only [hv', hl', ht, hdup]
        rfl

/-- C17, at sample data: student A, who attended the completed event `gala`,
rates it 4; a second submit with rating 2 leaves the stored row as it is. -/
theorem submitFeedback_guarded_once_witness :
    (submitFeedback galaDb 100 studentA 3 { rating := some 4, comment := some "Good" }).1.feedback =
        [{ id := 1, event_id := 3, user_id := 2, rating := 4, comment := some "Good"
           submitted_at := 100 }] ∧
      (submitFeedback
          (submitFeedback galaDb 100 studentA 3 { rating := some 4, comment := some "Good" }).1
          200 studentA 3 { rating := some 2 }).1 =
        (submitFeedback galaDb 100 studentA 3 { rating := some 4, comment := some "Good" }).1 :=
  ⟨by decide,
    ((submitFeedback_guarded_once galaDb 100 studentA 3
      { rating := some 4, comment := some "Good" }).2
      { message := "Feedback submitted successfully", id := 1 } (by decide)
      200 { rating := some 2 }).1⟩

/-- C18: with at most one attendance row per (event, user), check-out is
answered 200 only if the caller has an attendance row for the event whose
check_out_time is null; it then sets check_out_time = now on that row and
changes nothing else in the database; and a second check-out for the same
(event, user), at any later instant, is answered 404 and changes nothing, so
the recorded check_out_time stays. -/
theorem checkOut_once (db : Db) (now : Nat) (user : User) (id : Nat)
    (hone : (db.attendance.map Attendance.pair).Nodup) (b : RunBody)
    (hok : (checkOut db now user id).2 = .json 200 b) :
    (∃ a ∈ db.attendance, a.event_id = id ∧ a.user_id = user.id ∧ a.check_out_time = none ∧
      (checkOut db now user id).1 =
        { db with attendance := db.attendance.map fun x =>
            if x = a then { a with check_out_time := some now } else x }) ∧
    (∀ now', checkOut (checkOut db now user id).1 now' user id =
      ((checkOut db now user id).1,
       .fail 404 "Not Found" "No active attendance record found for this event")) := by
  by_cases hnone : ((innerJoin db.attendance db.events
      (fun a e => decide (a.event_id = e.id))).filter
      fun x => decide (x.1.event_id = id) && decide (x.1.user_id = user.id)
        && x.1.check_out_time.isNone).length = 0
  · simp [checkOut, hnone] at hok
  · have hE : checkOut db now user id =
        ({ db with attendance := db.attendance.map fun a =>
            if a.event_id = id ∧ a.user_id = user.id then { a with check_out_time := some now }
            else a },
         .json 200 { message := "Successfully checked out from event"
                     id := (runRows db.lastID).headD 0 }) := by
      simp only [checkOut, hnone, if_false]
    constructor
    · obtain ⟨x, hx⟩ := List.exists_mem_of_ne_nil _
        (fun h => hnone (List.length_eq_zero.2 h))
      obtain ⟨hj, hp⟩ := List.mem_filter.1 hx
      simp only [Bool.and_eq_true, decide_eq_true_eq] at hp
      rw [Option.isNone_iff_eq_none] at hp
      have hmem := (mem_innerJoin hj).1
      refine ⟨x.1, hmem, hp.1.1, hp.1.2, hp.2, ?_⟩
      rw [hE]
      have hmap : (db.attendance.map fun a =>
            if a.event_id = id ∧ a.user_id = user.id then { a with check_out_time := some now }
            else a) =
          db.attendance.map fun y =>
            if y = x.1 then { x.1 with check_out_time := some now } else y := by
        apply List.map_congr_left
        intro y hy
        by_cases hy' : y.event_id = id ∧ y.user_id = user.id
        · have : y = x.1 := by
            apply List.inj_on_of_nodup_map hone hy hmem
            simp [Attendance.pair, hy'.1, hy'.2, hp.1.1, hp.1.2]
          rw [if_pos hy', if_pos this, this]
        · have : y ≠ x.1 := by
            intro h
            exact hy' (by rw [h]; exact hp.1)
          rw [if_neg hy', if_neg this]
      rw [hmap]
    · intro now'
      rw [hE]
      have hnil : ((innerJoin
            (db.attendance.map fun a =>
              if a.event_id = id ∧ a.user_id = user.id then
                { a with check_out_time := some now }
              else a) db.events
            (fun a e => decide (a.event_id = e.id))).filter
          fun x => decide (x.1.event_id = id) && decide (x.1.user_id = user.id)
            && x.1.check_out_time.isNone).length = 0 := by
        rw [List.length_eq_zero, List.filter_eq_nil_iff]
        intro x hx hp
        simp only [Bool.and_eq_true, decide_eq_true_eq, Option.isNone_iff_eq_none] at hp
        obtain ⟨y, -, hy⟩ := List.mem_map.1 (mem_innerJoin hx).1
        by_cases hy' : y.event_id = id ∧ y.user_id = user.id
        · rw [if_pos hy'] at hy
          rw [← hy] at hp
          simp at hp
        · rw [if_neg hy'] at hy
          rw [← hy] at hp
          exact hy' hp.1
      simp only [checkOut, hnil, if_true]

/-- C18, at sample data: student A, checked in for `talk`, checks out at
instant 400; the row records 400 and a second check-out at 500 is answered 404. -/
theorem checkOut_once_witness :
    (checkOut checkedInDb 400 studentA 1).1.attendance =
        [{ id := 1, event_id := 1, user_id := 2, check_in_time := 200
           check_out_time := some 400, status := "present" }] ∧
      checkOut (checkOut checkedInDb 400 studentA 1).1 500 studentA 1 =
        ((checkOut checkedInDb 400 studentA 1).1,
         .fail 404 "Not Found" "No active attendance record found for this event") :=
  ⟨by decide,
    (checkOut_once checkedInDb 400 studentA 1 (by decide)
      { message := "Successfully checked out from event", id := 0 } (by decide)).2 500⟩

/-- C19: when create answers with an event, the status is 201, and get with the
returned id by the same admin answers 200 with an event whose title,
description, event_date, start_time, end_time, location, capacity,
registration_deadline and category_id are the values of the body, whose status
is `draft`, whose college_id is the admin's and whose created_by is the admin. -/
theorem createEvent_get_roundtrip (db db' : Db) (now : Nat) (user : User)
    (body : EventPayload) (status : Nat) (b : RunBody)
    (h : createEvent db now user body = (db', .json status b)) :
    status = 201 ∧
    ∃ row, getEvent db' user b.id = .json 200 row ∧
      some row.event.title = body.title ∧ row.event.description = body.description ∧
      some row.event.event_date = body.eventDate ∧
      some row.event.start_time = body.startTime ∧ some row.event.end_time = body.endTime ∧
      row.event.location = body.location ∧
      row.event.capacity.map Int.ofNat = body.capacity ∧
      row.event.registration_deadline = body.registrationDeadline ∧
      some (row.event.category_id : ℤ) = body.categoryId ∧
      row.event.status = "draft" ∧ row.event.college_id = user.college_id ∧
      row.event.created_by = user.id := by
  unfold createEvent at h
  cases hv : eventSchemaValidate now body with
  | error key => simp [hv] at h
  | ok v =>
    simp only [hv] at h
    split at h
    · simp at h
    · split at h
      · simp at h
      · simp only [Prod.mk.injEq, Response.json.injEq] at h
        obtain ⟨hdb, hs, hb⟩ := h
        obtain ⟨v1, v2, v3, v4, v5, v6, v7, v8, v9, v10, v11⟩ := eventSchemaValidate_ok hv
        refine ⟨hs.symm, ?_⟩
        have hbid : b.id = nextId (db.events.map (·.id)) := by
          rw [← hb]
          rfl
        have hevents : db'.events = db.events ++
            [{ id := nextId (db.events.map (·.id)), college_id := user.college_id
               category_id := v.categoryId.toNat, title := v.title
               description := v.description, event_date := v.eventDate
               start_time := v.startTime, end_time := v.endTime, location := v.location
               capacity := v.capacity.map Int.toNat
               registration_deadline := v.registrationDeadline
               created_by := user.id, status := "draft", created_at := now
               updated_at := now }] := by
          rw [← hdb]
        unfold getEvent
        cases hrows : eventRows db'
            (fun e => decide (e.id = b.id) && decide (e.college_id = user.college_id)) with
        | nil =>
          have := eventRows_eq_nil.1 hrows _
            (show _ ∈ db'.events by rw [hevents]; exact List.mem_append_right _ (List.mem_singleton.2 rfl))
          simp [hbid] at this
        | cons row rest =>
          have hmem : row ∈ eventRows db'
              (fun e => decide (e.id = b.id) && decide (e.college_id = user.college_id)) := by
            rw [hrows]
            exact List.mem_cons_self _ _
          obtain ⟨m1, m2⟩ := mem_eventRows hmem
          simp only [Bool.and_eq_true, decide_eq_true_eq] at m2
          rw [hevents] at m1
          rcases List.mem_append.1 m1 with hold | hnew
          · have : row.event.id < nextId (db.events.map (·.id)) :=
              lt_nextId (List.mem_map.2 ⟨row.event, hold, rfl⟩)
            rw [m2.1, hbid] at this
            exact absurd this (lt_irrefl _)
          · have hrow := List.mem_singleton.1 hnew
            refine ⟨row, rfl, ?_⟩
            rw [hrow]
            refine ⟨v1.symm, v2, v3.symm, v4.symm, v5.symm, v6, ?_, v8, ?_, rfl, rfl, rfl⟩
            · simp only
              rw [v7]
              cases hcap : body.capacity with
              | none => rfl
              | some c =>
                have := v11 c hcap
                simp only [Option.map_some', Option.some.injEq]
                exact Int.toNat_of_nonneg (by omega)
            · simp only
              rw [v9, Int.toNat_of_nonneg (by omega)]

/-- C19, at sample data: the body from 10:00 to 9:30, accepted by create, is
read back by get with the returned id. -/
theorem createEvent_get_roundtrip_witness :
    ∃ row, getEvent (createEvent baseDb 100 adminA backwardBody).1 adminA 2 = .json 200 row ∧
      some row.event.title = backwardBody.title ∧ row.event.status = "draft" :=
  match (createEvent_get_roundtrip baseDb (createEvent baseDb 100 adminA backwardBody).1 100
      adminA backwardBody 201 { message := "Event created successfully", id := 2 }
      (by decide)).2 with
  | ⟨row, h1, h2, _, _, _, _, _, _, _, _, h3, _, _⟩ => ⟨row, h1, h2, h3⟩

/-- C20: with unique event ids, for every body the schema accepts and every
event of the admin's college whose status is `completed`, update answers 400
"Cannot update completed events" and leaves the database, and so every field of
the event, unchanged. -/
theorem updateEvent_completed (db : Db) (now : Nat) (user : User) (ev : Event)
    (body : EventPayload) (v : EventValue)
    (hids : (db.events.map (·.id)).Nodup) (hev : ev ∈ db.events)
    (hcol : ev.college_id = user.college_id) (hst : ev.status = "completed")
    (hv : eventSchemaValidate now body = .ok v) :
    updateEvent db now user ev.id body =
      (db, .fail 400 "Bad Request" "Cannot update completed events") := by
  have hfilter : db.events.filter (fun e => decide (e.id = ev.id)
      && decide (e.college_id = user.college_id)) = [ev] := by
    have hsplit : db.events.filter (fun e => decide (e.id = ev.id)
        && decide (e.college_id = user.college_id)) =
        (db.events.filter (fun e => decide (e.id = ev.id))).filter
          (fun e => decide (e.college_id = user.college_id)) := by
      rw [List.filter_filter]
      congr 1
      funext e
      exact Bool.and_comm _ _
    rw [hsplit, filter_key_eq_singleton (fun e : Event => e.id) hids hev]
    simp [hcol]
  unfold updateEvent
  simp only [hv, hfilter, hst, if_true]

/-- C20, at sample data: the completed event `gala` of college 1 is not updated
by its admin. -/
theorem updateEvent_completed_witness :
    updateEvent galaDb 100 adminA gala.id morningBody =
      (galaDb, .fail 400 "Bad Request" "Cannot update completed events") :=
  updateEvent_completed galaDb 100 adminA gala morningBody
    { title := "Test API Event", description := none, eventDate := 9000, startTime := "9:00"
      endTime := "10:00", location := none, capacity := none, registrationDeadline := none
      categoryId := 1 }
    (by decide) (by decide) (by decide) (by decide) rfl

/-- C21: the status patch is answered 400 exactly when the requested status is
not one of draft, published, cancelled, completed; and, event ids being unique,
for every event of the admin's college, whatever its current status, and every
one of the four statuses, the answer is 200 and the events table is the old one
with status and updated_at of that event rewritten, every other field and every
other event as before. -/
theorem setEventStatus_any_transition (db : Db) (now : Nat) (user : User) (ev : Event)
    (hids : (db.events.map (·.id)).Nodup) (hev : ev ∈ db.events)
    (hcol : ev.college_id = user.college_id) :
    (∀ id status, (setEventStatus db now user id status).2.status = 400 ↔
      ¬ ∃ t ∈ ["draft", "published", "cancelled", "completed"], status = some t) ∧
    (∀ t ∈ ["draft", "published", "cancelled", "completed"],
      setEventStatus db now user ev.id (some t) =
        ({ db with events := db.events.map fun e =>
            if e = ev then { ev with status := t, updated_at := now } else e },
         .json 200 { message := "Event status updated successfully", id := db.lastID })) := by
  constructor
  · intro id status
    cases status with
    | none => simp [setEventStatus, Response.status]
    | some st =>
      by_cases hst : st ∈ ["draft", "published", "cancelled", "completed"]
      · have hc : (["draft", "published", "cancelled", "completed"].contains st) = true := by
          simpa using hst
        simp only [setEventStatus, hc, runRows, Response.status]
        constructor
        · intro h
          simp at h
        · intro h
          exact absurd ⟨st, hst, rfl⟩ h
      · have hc : (["draft", "published", "cancelled", "completed"].contains st) = false := by
          simpa using hst
        simp only [setEventStatus, hc, Response.status, if_true, true_iff]
        rintro ⟨t, ht, heq⟩
        simp only [Option.some.injEq] at heq
        exact hst (heq ▸ ht)
  · intro t ht
    have hc : (["draft", "published", "cancelled", "completed"].contains t) = true := by
      simpa using ht
    have hmap : (db.events.map fun e =>
          if e.id = ev.id ∧ e.college_id = user.college_id then
            { e with status := t, updated_at := now }
          else e) =
        db.events.map fun e =>
          if e = ev then { ev with status := t, updated_at := now } else e := by
      apply List.map_congr_left
      intro e he
      by_cases hid : e.id = ev.id
      · have : e = ev := List.inj_on_of_nodup_map hids he hev hid
        subst this
        simp [hcol]
      · have : e ≠ ev := fun h => hid (by rw [h])
        simp [hid, this]
    simp only [setEventStatus, hc, runRows, hmap]
    simp

/-- C21, at sample data: the completed event `gala` is set back to draft by the
admin of its college; `talk` is as before. -/
theorem setEventStatus_any_transition_witness :
    setEventStatus galaDb 700 adminA gala.id (some "draft") =
      ({ galaDb with events := [talk, { gala with status := "draft", updated_at := 700 }] },
       .json 200 { message := "Event status updated successfully", id := 0 }) :=
  ((setEventStatus_any_transition galaDb 700 adminA gala (by decide) (by decide)
    (by decide)).2 "draft" (by decide)).trans (by decide)

/-- C22: event ids being unique, for every event of the admin's college, delete
is answered 400 and changes nothing when a registration row of any status
references the event; otherwise it is answered 200 and the events table loses
that event and no other. -/
theorem deleteEvent_guarded (db : Db) (user : User) (ev : Event)
    (hids : (db.events.map (·.id)).Nodup) (hev : ev ∈ db.events)
    (hcol : ev.college_id = user.college_id) :
    ((∃ r ∈ db.registrations, r.event_id = ev.id) →
      deleteEvent db user ev.id =
        (db, .fail 400 "Bad Request" "Cannot delete event with existing registrations")) ∧
    ((¬ ∃ r ∈ db.registrations, r.event_id = ev.id) →
      deleteEvent db user ev.id =
        ({ db with events := db.events.filter fun e => decide (e ≠ ev) },
         .json 200 "Event deleted successfully")) := by
  have hcount : (db.registrations.filter fun r => decide (r.event_id = ev.id)).length > 0 ↔
      ∃ r ∈ db.registrations, r.event_id = ev.id := by
    rw [gt_iff_lt, List.length_pos, ne_eq, List.filter_eq_nil_iff]
    simp only [decide_eq_true_eq, not_forall, not_not, exists_prop]
  constructor
  · intro h
    simp only [deleteEvent, hcount.2 h, if_true]
  · intro h
    have hfilter : (db.events.filter fun e =>
          !(decide (e.id = ev.id) && decide (e.college_id = user.college_id))) =
        db.events.filter fun e => decide (e ≠ ev) := by
      apply List.filter_congr
      intro e he
      by_cases hid : e.id = ev.id
      · have : e = ev := List.inj_on_of_nodup_map hids he hev hid
        subst this
        simp [hcol]
      · have : e ≠ ev := fun h => hid (by rw [h])
        simp [hid, this]
    have hn : ¬ (db.registrations.filter fun r => decide (r.event_id = ev.id)).length > 0 :=
      fun hc => h (hcount.1 hc)
    simp only [deleteEvent, hn, if_false, runRows, hfilter]

/-- C22, at sample data: `talk` has a cancelled registration row and is not
deleted by the admin of its college. -/
theorem deleteEvent_guarded_witness :
    deleteEvent cancelledDb adminA talk.id =
      (cancelledDb, .fail 400 "Bad Request" "Cannot delete event with existing registrations") :=
  (deleteEvent_guarded cancelledDb adminA talk (by decide) (by decide) (by decide)).1
    ⟨{ id := 1, event_id := 1, user_id := 2, status := "cancelled", registration_date := 10 },
      by decide, by decide⟩

/-- C27 (the code departs from it): student A (id 2, college 1) asks for page 3
with limit 10 and no filter. The array passed with the listing query is
[1, 2, 10, 20]: `$1`, compared with my_reg.user_id, is the college id 1; the
placeholder after LIMIT, `$2`, is the user id 2; the placeholder after OFFSET,
`$3`, is the limit 10; and the count query, whose WHERE clause references `$1`
only, receives the two values [1, 2]. -/
theorem studentEvents_bindings_shifted :
    studentEventsQueryParams studentA { page := 3, limit := 10 } =
      [.num 1, .num 2, .num 10, .num 20] ∧
    boundValue (studentEventsQueryParams studentA { page := 3, limit := 10 })
        studentEventsUserPlaceholder = some (.num studentA.college_id) ∧
    boundValue (studentEventsQueryParams studentA { page := 3, limit := 10 })
        (studentEventsLimitPlaceholder studentA { page := 3, limit := 10 }) =
      some (.num studentA.id) ∧
    boundValue (studentEventsQueryParams studentA { page := 3, limit := 10 })
        (studentEventsOffsetPlaceholder studentA { page := 3, limit := 10 }) =
      some (.num 10) ∧
    studentEventsParamCount studentA { page := 3, limit := 10 } = 1 ∧
    studentEventsCountParams studentA { page := 3, limit := 10 } = [.num 1, .num 2] := by
  decide

/-- C26 as stated fails: a body with an email no user has and without password
is a case in which no token may be issued, and it is answered 400 "Validation
Error", not 401. -/
theorem login_invalid_body_400 :
    (∀ u ∈ loginDb.users, u.email ≠ "ghost@techuniv.edu") ∧
    login sampleIsEmail sampleCompare loginDb { email := some "ghost@techuniv.edu" } =
      .fail 400 "Validation Error" "password" := by
  decide

/-- C26, amended: for a body the login schema accepts, login answers 200 with a
token only if the first active user row with the given email has a password
hash the password matches, and the token's payload is userId, email, role and
collegeId of that row; when no active user row with that email has a matching
hash the answer is 401 "Invalid email or password"; no other answer occurs. A
body the schema refuses is answered 400. -/
theorem login_outcomes (isEmail : String → Bool) (compare : String → String → Bool)
    (db : Db) (body : LoginPayload) :
    (∀ email password, loginSchemaValidate isEmail body = .ok (email, password) →
      (∀ status b, login isEmail compare db body = .json status b →
        status = 200 ∧ ∃ u ∈ db.users, u.email = email ∧ u.is_active = true ∧
          compare password u.password_hash = true ∧
          b.token = { userId := u.id, email := u.email, role := u.role
                      collegeId := u.college_id }) ∧
      ((¬ ∃ u ∈ db.users, u.email = email ∧ u.is_active = true ∧
          compare password u.password_hash = true) →
        login isEmail compare db body =
          .fail 401 "Unauthorized" "Invalid email or password") ∧
      ((∃ b, login isEmail compare db body = .json 200 b) ∨
        login isEmail compare db body =
          .fail 401 "Unauthorized" "Invalid email or password")) ∧
    (∀ key, loginSchemaValidate isEmail body = .error key →
      login isEmail compare db body = .fail 400 "Validation Error" key) := by
  constructor
  · intro email password hv
    unfold login
    simp only [hv]
    cases hrows : loginRows db email with
    | nil =>
      refine ⟨fun status b h => by simp at h, fun _ => rfl, Or.inr rfl⟩
    | cons row rest =>
      have hmem : row ∈ loginRows db email := by
        rw [hrows]
        exact List.mem_cons_self _ _
      obtain ⟨m1, m2, m3⟩ := mem_loginRows hmem
      by_cases hc : compare password row.user.password_hash = true
      · simp only [hc, Bool.not_true, Bool.false_eq_true, if_false]
        refine ⟨fun status b h => ?_, fun hno => ?_, Or.inl ⟨_, rfl⟩⟩
        · simp only [Response.json.injEq] at h
          obtain ⟨hs, hb⟩ := h
          subst hs hb
          exact ⟨rfl, row.user, m1, m2, m3, hc, rfl⟩
        · exact absurd ⟨row.user, m1, m2, m3, hc⟩ hno
      · have hc' : compare password row.user.password_hash = false := by simpa using hc
        have hE : (if (!compare password row.user.password_hash) = true then
              (Response.fail 401 "Unauthorized" "Invalid email or password" : Response LoginBody)
            else
              .json 200
                { message := "Login successful"
                  user := { id := row.user.id, email := row.user.email
                            firstName := row.user.first_name, lastName := row.user.last_name
                            studentId := row.user.student_id, role := row.user.role
                            collegeId := row.user.college_id, collegeName := row.college_name }
                  token := { userId := row.user.id, email := row.user.email
                             role := row.user.role, collegeId := row.user.college_id } }) =
            .fail 401 "Unauthorized" "Invalid email or password" := by
          rw [hc']
          rfl
        simp only [hE]
        exact ⟨fun status b h => by simp at h, fun _ => trivial, Or.inr trivial⟩
  · intro key hv
    unfold login
    simp only [hv]

/-- C26, amended, at sample data: the admin logs in with the right password and
the token carries the four claims of the stored row. -/
theorem login_outcomes_witness :
    ∃ u ∈ loginDb.users, u.email = "admin@techuniv.edu" ∧ u.is_active = true ∧
      sampleCompare "admin123" u.password_hash = true ∧
      ({ userId := 1, email := "admin@techuniv.edu", role := "admin", collegeId := 1 } :
        TokenPayload) =
        { userId := u.id, email := u.email, role := u.role, collegeId := u.college_id } :=
  (((login_outcomes sampleIsEmail sampleCompare loginDb
      { email := some "admin@techuniv.edu", password := some "admin123" }).1
      "admin@techuniv.edu" "admin123" rfl).1 200
    { message := "Login successful"
      user := { id := 1, email := "admin@techuniv.edu", firstName := "Ada", lastName := "Admin"
                studentId := none, role := "admin", collegeId := 1
                collegeName := "Tech University" }
      token := { userId := 1, email := "admin@techuniv.edu", role := "admin", collegeId := 1 } }
    (by decide)).2

/-- C24: with every stored rating between 1 and 5, in the feedback summary of
an event and in the feedback summary report the five star counts add up to
total_feedback; when total_feedback > 0 each entry of rating_distribution is
the rounding of count / total * 100 applied to the star count and
total_feedback; and when total_feedback is 0 the five entries are 0. -/
theorem feedback_summaries_distribution (roundPercent : Nat → Nat → Nat) (round2 : ℚ → ℚ)
    (db : Db) (user : User) (hrange : ∀ f ∈ db.feedback, 1 ≤ f.rating ∧ f.rating ≤ 5)
    (st : StarSummary)
    (hst : (∃ id s, feedbackEventSummary roundPercent round2 db user id = .json 200 s ∧
        s.stars = st) ∨
      (∃ flt s, feedbackSummaryReport roundPercent round2 db user flt = .json 200 s ∧
        s.stars = st)) :
    st.five_star_count + st.four_star_count + st.three_star_count + st.two_star_count
        + st.one_star_count = st.total_feedback ∧
    (st.total_feedback > 0 →
      st.rating_distribution =
        { five_star := roundPercent st.five_star_count st.total_feedback
          four_star := roundPercent st.four_star_count st.total_feedback
          three_star := roundPercent st.three_star_count st.total_feedback
          two_star := roundPercent st.two_star_count st.total_feedback
          one_star := roundPercent st.one_star_count st.total_feedback }) ∧
    (st.total_feedback = 0 →
      st.rating_distribution =
        { five_star := 0, four_star := 0, three_star := 0, two_star := 0, one_star := 0 }) := by
  have hjoin : ∀ (rows : List (Event × Option Feedback)),
      (∀ x ∈ rows, x ∈ leftJoin db.events db.feedback (fun e f => decide (e.id = f.event_id))) →
      ∀ f, some f ∈ rows.map (·.2) → 1 ≤ f.rating ∧ f.rating ≤ 5 := by
    intro rows hrows f hf
    obtain ⟨x, hx, hxf⟩ := List.mem_map.1 hf
    have hmem := hrows x hx
    obtain ⟨e, o⟩ := x
    simp only at hxf
    subst hxf
    exact hrange f (mem_leftJoin_snd hmem).1
  rcases hst with ⟨id, s, hs, rfl⟩ | ⟨flt, s, hs, rfl⟩
  · unfold feedbackEventSummary at hs
    split at hs
    · simp at hs
    · cases hg : feedbackSummaryGroups db user.college_id id with
      | nil => simp [hg] at hs
      | cons g rest =>
        simp only [hg, Response.json.injEq, true_and] at hs
        subst hs
        apply starSummary_spec
        apply hjoin
        intro x hx
        have hgm : g ∈ feedbackSummaryGroups db user.college_id id := by
          rw [hg]
          exact List.mem_cons_self _ _
        unfold feedbackSummaryGroups at hgm
        rw [(mem_groupBy.1 hgm).2] at hx
        exact (List.mem_filter.1 (List.mem_filter.1 hx).1).1
  · unfold feedbackSummaryReport at hs
    simp only [Response.json.injEq, true_and] at hs
    subst hs
    apply starSummary_spec
    apply hjoin
    intro x hx
    unfold feedbackReportRows at hx
    exact (List.mem_filter.1 hx).1

/-- C24, at sample data: `gala` has three feedback rows rated 5, 5 and 4; the
summary of the event counts 2, 1, 0, 0, 0 out of 3. -/
theorem feedback_summaries_distribution_witness :
    (starSummary halfUpPercent exactRound2
          [some ratedA, some ratedB, some ratedC]).five_star_count
        + (starSummary halfUpPercent exactRound2
          [some ratedA, some ratedB, some ratedC]).four_star_count
        + (starSummary halfUpPercent exactRound2
          [some ratedA, some ratedB, some ratedC]).three_star_count
        + (starSummary halfUpPercent exactRound2
          [some ratedA, some ratedB, some ratedC]).two_star_count
        + (starSummary halfUpPercent exactRound2
          [some ratedA, some ratedB, some ratedC]).one_star_count =
      (starSummary halfUpPercent exactRound2
        [some ratedA, some ratedB, some ratedC]).total_feedback :=
  (feedback_summaries_distribution halfUpPercent exactRound2 ratedDb adminA (by decide)
    (starSummary halfUpPercent exactRound2 [some ratedA, some ratedB, some ratedC])
    (Or.inl ⟨3, { title := "Gala", event_date := 5000
                  stars := starSummary halfUpPercent exactRound2
                    [some ratedA, some ratedB, some ratedC] },
      by rfl, rfl⟩)).1

/-- C14 (the code departs from it): student A holds an active registration for
the published event `dayTen` of their college and has no attendance row; at an
instant of the event's date (the same date in UTC and on a server whose clock
is on UTC) check-in is answered 500 "Failed to check in for event" and inserts
nothing, and on the next day it is answered 500 as well, not 400. -/
theorem checkIn_on_event_date_500 :
    dayTen ∈ dayTenDb.events ∧ dayTen.status = "published" ∧
    dayTen.college_id = studentA.college_id ∧
    activeOfPair dayTenDb dayTen.id studentA.id = 1 ∧
    attendanceOfPair dayTenDb dayTen.id studentA.id = 0 ∧
    utcDate dayTen.event_date = utcDate 864000100 ∧
    localDate 0 dayTen.event_date = localDate 0 864000100 ∧
    checkIn dayTenDb 864000100 studentA dayTen.id =
      (dayTenDb, .fail 500 "Internal Server Error" "Failed to check in for event") ∧
    utcDate dayTen.event_date + 1 = utcDate 950400100 ∧
    checkIn dayTenDb 950400100 studentA dayTen.id =
      (dayTenDb, .fail 500 "Internal Server Error" "Failed to check in for event") := by
  decide

/-- C15: from every store with at most one attendance row per (event_id,
user_id), the empty store among them, after any sequence of register, cancel,
check-in and check-out requests served one after the other the attendance rows
have the pairs they had before, so every pair has at most one attendance row. -/
theorem attendance_at_most_one (db : Db) (reqs : List Request)
    (hatt : (db.attendance.map Attendance.pair).Nodup) :
    (runRequests db reqs).attendance.map Attendance.pair = db.attendance.map Attendance.pair ∧
    ∀ event_id user_id : Nat, attendanceOfPair (runRequests db reqs) event_id user_id ≤ 1 := by
  have hpairs := runRequests_attendance_pairs reqs db
  refine ⟨hpairs, fun event_id user_id => ?_⟩
  have h : ((runRequests db reqs).attendance.map Attendance.pair).Nodup := by
    rw [hpairs]
    exact hatt
  have hle := length_filter_key_le_one Attendance.pair (event_id, user_id) _ h
  have hfun : (fun a : Attendance => decide (a.pair = (event_id, user_id))) =
      fun a => decide (a.event_id = event_id) && decide (a.user_id = user_id) := by
    funext a
    simp [Attendance.pair]
  rw [hfun] at hle
  exact hle

/-- C15, at sample data: from the store without rows, student A registers for
`talk`, checks in twice and checks out, and no attendance row exists; from the
store in which student A has an attendance row for `talk`, one more check-in
and a check-out leave that one row. -/
theorem attendance_at_most_one_witness :
    baseDb.registrations = [] ∧ baseDb.attendance = [] ∧
    attendanceOfPair
        (runRequests baseDb
          [.register 100 studentA 1, .checkIn 200 studentA 1, .checkIn 300 studentA 1,
           .checkOut 400 studentA 1]) 1 2 = 0 ∧
    attendanceOfPair
        (runRequests baseDb
          [.register 100 studentA 1, .checkIn 200 studentA 1, .checkIn 300 studentA 1,
           .checkOut 400 studentA 1]) 1 2 ≤ 1 ∧
    attendanceOfPair checkedInDb 1 2 = 1 ∧
    attendanceOfPair
        (runRequests checkedInDb [.checkIn 300 studentA 1, .checkOut 400 studentA 1]) 1 2 = 1 ∧
    attendanceOfPair
        (runRequests checkedInDb [.checkIn 300 studentA 1, .checkOut 400 studentA 1]) 1 2 ≤ 1 :=
  ⟨rfl, rfl, by decide,
    (attendance_at_most_one baseDb _ (by decide)).2 1 2, by decide, by decide,
    (attendance_at_most_one checkedInDb _ (by decide)).2 1 2⟩

/-- C23: for the event list and a request without search text (with one, the
statement has `ILIKE` and the answer is 500), with limit >= 1 and page >= 1
(category and user ids being unique), the answer carries total,
the number of events that pass the filter, and pages, the least n with
total <= n * limit, that is ceil(total / limit); the rows are the rows of the
ordered result from offset (page - 1) * limit on, at most limit of them; for
page > pages the rows are empty; and total is the same for every page. -/
theorem listEvents_pagination (ops : Ops) (db : Db) (user : User) (q : EventListQuery)
    (hsearch : q.search = none ∨ q.search = some "")
    (hlimit : 1 ≤ q.limit) (hpage : 1 ≤ q.page)
    (hcats : (db.event_categories.map (·.id)).Nodup) (husers : (db.users.map (·.id)).Nodup) :
    ∃ body, listEvents ops db user q = .json 200 body ∧
      body.pagination.total = (db.events.filter (eventListWhere ops user.college_id q)).length ∧
      (∃ n, body.pagination.pages = some n ∧ body.pagination.total ≤ n * q.limit ∧
        (∀ m, body.pagination.total ≤ m * q.limit → n ≤ m) ∧
        (n < q.page → body.rows = [])) ∧
      body.rows =
        ((sortedEventRows ops db user q).drop ((q.page - 1) * q.limit)).take q.limit ∧
      body.rows.length ≤ q.limit ∧
      (∀ page', ∃ body', listEvents ops db user { q with page := page' } = .json 200 body' ∧
        body'.pagination.total = body.pagination.total) := by
  have hoff : (((q.page : Int) - 1) * q.limit).toNat = (q.page - 1) * q.limit := by
    have : ((q.page : Int) - 1) * q.limit = (((q.page - 1) * q.limit : ℕ) : ℤ) := by
      push_cast [Nat.cast_sub hpage]
      ring
    rw [this, Int.toNat_natCast]
  have hrows : limitOffset q.limit (((q.page : Int) - 1) * q.limit)
      (sortedEventRows ops db user q) =
      ((sortedEventRows ops db user q).drop ((q.page - 1) * q.limit)).take q.limit := by
    unfold limitOffset
    rw [hoff]
  obtain ⟨n, hn1, hn2, hn3⟩ := pagesOf_ceil
    (db.events.filter (eventListWhere ops user.college_id q)).length q.limit hlimit
  have hlen : (sortedEventRows ops db user q).length ≤
      (db.events.filter (eventListWhere ops user.college_id q)).length := by
    unfold sortedEventRows orderBy
    split
    · rw [(List.perm_insertionSort _ _).length_eq]
      exact length_eventRows_le db _ hcats husers
    · rw [(List.perm_insertionSort _ _).length_eq]
      exact length_eventRows_le db _ hcats husers
  refine ⟨_, listEvents_searchless ops db user q hsearch, rfl, ⟨n, hn1, hn2, hn3, ?_⟩,
    hrows, ?_, ?_⟩
  · intro hlt
    show limitOffset q.limit (((q.page : Int) - 1) * q.limit)
      (sortedEventRows ops db user q) = []
    rw [hrows, List.drop_eq_nil_of_le, List.take_nil]
    have h1 : n * q.limit ≤ (q.page - 1) * q.limit :=
      Nat.mul_le_mul_right _ (by omega)
    omega
  · show (limitOffset q.limit (((q.page : Int) - 1) * q.limit)
      (sortedEventRows ops db user q)).length ≤ q.limit
    rw [hrows]
    exact List.length_take_le _ _
  · intro page'
    exact ⟨_, listEvents_searchless ops db user { q with page := page' } hsearch, rfl⟩

/-- C23, at sample data: one event passes the filter; page 2 with limit 10 is
beyond the single page and has no rows, and total is 1 as on page 1. The same
request with a search text is answered 500: its statement has `ILIKE`. -/
theorem listEvents_pagination_witness :
    (∃ body, listEvents asciiOps baseDb adminA { page := 2 } = .json 200 body ∧
      body.pagination.total = 1 ∧ body.pagination.pages = some 1 ∧ body.rows = []) ∧
    listEvents asciiOps baseDb adminA { page := 2, search := some "talk" } =
      .fail 500 "Internal Server Error" "Failed to fetch events" :=
  ⟨match listEvents_pagination asciiOps baseDb adminA { page := 2 } (Or.inl rfl) (by decide)
      (by decide) (by decide) (by decide) with
    | ⟨body, h1, _, _, _, _, _⟩ =>
      ⟨body, h1, by
        have h2 : listEvents asciiOps baseDb adminA { page := 2 } =
            .json 200 { rows := []
                        pagination := { page := 2, limit := 10, total := 1, pages := some 1 } } := by
          decide
        rw [h2] at h1
        simp only [Response.json.injEq, true_and] at h1
        rw [← h1]
        exact ⟨rfl, rfl, rfl⟩⟩,
    by decide⟩

/-- C25 (the code departs from it): `talk` has three attendance rows and no
registration, and no student of college 1 has a registration; the attendance
summary of the event, the event popularity report, the flexible report and the
student participation report are each answered 500, as they are for every
request of an admin: their statements have `::float`, which sqlite3 refuses,
and no percentage is computed. -/
theorem percentage_statements_rejected :
    activeRegistrations walkInDb 1 = 0 ∧ attendanceRows walkInDb 1 = 3 ∧
    walkInDb.registrations = [] ∧
    attendanceSummary walkInDb adminA 1 =
      .fail 500 "Internal Server Error" "Failed to fetch attendance summary" ∧
    eventPopularity asciiOps exactRound2 walkInDb adminA {} =
      .fail 500 "Internal Server Error" "Failed to generate event popularity report" ∧
    flexibleReport asciiOps exactRound2 walkInDb adminA {} =
      .fail 500 "Internal Server Error" "Failed to generate flexible report" ∧
    studentParticipation asciiOps exactRound2 walkInDb adminA {} =
      .fail 500 "Internal Server Error" "Failed to generate student participation report" ∧
    (∀ (db : Db) (user : User) (id : Nat), user.role = "admin" →
      attendanceSummary db user id =
        .fail 500 "Internal Server Error" "Failed to fetch attendance summary") := by
  refine ⟨by decide, by decide, rfl, by decide, rfl, rfl, rfl, ?_⟩
  intro db user id hrole
  unfold attendanceSummary
  rw [if_neg (not_not.2 hrole)]
  rfl

/-- C28 (the code departs from it): `gala` has 2 active registrations, 3
attendance rows and three feedback rows rated 5, 5 and 4; the event popularity
report and the flexible report are answered 500, as they are for every
database, caller and query string, and no average_rating is reported. -/
theorem event_reports_rejected :
    activeRegistrations crowdDb 3 = 2 ∧ attendanceRows crowdDb 3 = 3 ∧
    crowdDb.feedback.map (fun f => (f.event_id, f.rating)) = [(3, 5), (3, 5), (3, 4)] ∧
    eventPopularity asciiOps exactRound2 crowdDb adminA {} =
      .fail 500 "Internal Server Error" "Failed to generate event popularity report" ∧
    flexibleReport asciiOps exactRound2 crowdDb adminA {} =
      .fail 500 "Internal Server Error" "Failed to generate flexible report" ∧
    (∀ (ops : Ops) (round2 : ℚ → ℚ) (db : Db) (user : User) (q : PopularityQuery),
      eventPopularity ops round2 db user q =
        .fail 500 "Internal Server Error" "Failed to generate event popularity report") ∧
    (∀ (ops : Ops) (round2 : ℚ → ℚ) (db : Db) (user : User) (q : FlexibleQuery),
      flexibleReport ops round2 db user q =
        .fail 500 "Internal Server Error" "Failed to generate flexible report") := by
  exact ⟨by decide, by decide, by decide, rfl, rfl, fun _ _ _ _ _ => rfl,
    fun _ _ _ _ _ => rfl⟩

/-- C29 (the code departs from it): after student A has registered for two
events and cancelled one registration, the student participation report and the
top active students report are answered 500, as they are in every state and
for every query string, and no attendance_percentage is reported. -/
theorem student_reports_rejected :
    twoEventsDb.registrations = [] ∧ twoEventsDb.attendance = [] ∧
    activeOfPair
      (runRequests twoEventsDb
        [.register 10 studentA 1, .register 10 studentA 5, .cancel studentA 1]) 5 2 = 1 ∧
    studentParticipation asciiOps exactRound2
        (runRequests twoEventsDb
          [.register 10 studentA 1, .register 10 studentA 5, .cancel studentA 1]) adminA {} =
      .fail 500 "Internal Server Error" "Failed to generate student participation report" ∧
    topActiveStudents exactRound2
        (runRequests twoEventsDb
          [.register 10 studentA 1, .register 10 studentA 5, .cancel studentA 1]) adminA 3 =
      .fail 500 "Internal Server Error" "Failed to generate top active students report" ∧
    (∀ (ops : Ops) (round2 : ℚ → ℚ) (db : Db) (user : User) (q : ParticipationQuery),
      studentParticipation ops round2 db user q =
        .fail 500 "Internal Server Error"
          "Failed to generate student participation report") ∧
    (∀ (round2 : ℚ → ℚ) (db : Db) (user : User) (limit : Nat),
      topActiveStudents round2 db user limit =
        .fail 500 "Internal Server Error"
          "Failed to generate top active students report") := by
  exact ⟨rfl, rfl, by decide, rfl, rfl, fun _ _ _ _ _ => rfl, fun _ _ _ _ => rfl⟩

/-- C30 (the code departs from it): `seminarSoon` is a published event of
student C's college whose registration deadline 500 is still ahead at instant
100, and register at that instant accepts student C (201); the event listing of
the student at the same instant is answered 500 "Failed to fetch events", as it
is for every request: the `WHERE` clause of its statement calls `NOW()`, which
sqlite3 does not have, so the listing's deadline test admits no event. -/
theorem studentEvents_rejected :
    seminarSoon ∈ soonDb.events ∧ seminarSoon.status = "published" ∧
    seminarSoon.college_id = studentC.college_id ∧
    seminarSoon.registration_deadline = some 500 ∧
    (registerForEvent soonDb 100 studentC seminarSoon.id).2.status = 201 ∧
    studentEvents asciiOps 100 soonDb studentC {} =
      .fail 500 "Internal Server Error" "Failed to fetch events" ∧
    (∀ (ops : Ops) (now : Nat) (db : Db) (user : User) (q : StudentEventsQuery),
      studentEvents ops now db user q =
        .fail 500 "Internal Server Error" "Failed to fetch events") := by
  exact ⟨by decide, by decide, by decide, rfl, by decide, rfl, fun _ _ _ _ _ => rfl⟩

end Campus
